import Mathlib

/-!
Shallow embedding of the Arbitrage Execution Engine of `src/app/arbitrage.py`
(class `ArbitrageBot`), together with the pieces of `src/app/config.py`,
`src/app/models.py` and `src/app/exchanges.py` it relies on.

Modelling conventions:
* Python floats are modelled as exact rationals (`ℚ`).
* Python dicts keyed by strings are modelled as association lists with
  Python's dict semantics (update in place keeps the position, a new key is
  appended at the end, `pop` removes the key).
* `uuid` identifiers and wall-clock timestamps are irrelevant to the verified
  claims; records keep only the fields the engine logic reads.  Where the code
  stores a timestamp that the logic could later compare (failsafe entries),
  time is threaded explicitly as a rational `now`.
* Configuration attributes referenced by `arbitrage.py` but absent from
  `src/app/config.py` (`FAILSAFE_MAX_FAILURES_PER_PAIR_WINDOW`,
  `FAILSAFE_MAX_FAILURES_PER_EXCHANGE_WINDOW`,
  `FAILSAFE_MAX_GLOBAL_LOSS_PERCENTAGE`, `MAX_RECENT_TRADES_TO_STORE`) are
  modelled as fields of the `Settings` record; their default values follow the
  closest constants in `config.py` and the spec (pair window 5, exchange
  window 10, max global loss 2%, trade history bound 50).
* External I/O (order placement, balance fetches, portfolio valuation) is
  abstracted into an `ExecEnv` record supplied by the caller; `create_order`
  in `exchanges.py` catches every exception and returns `None`, so an order
  either yields a result dict (`OrderResult.ok`) or `None` (`OrderResult.err`).
-/

namespace ArbBot

/-- One price level of an order book (`models.OrderBookEntry`). -/
structure OrderBookEntry where
  price : ℚ
  amount : ℚ
deriving Repr, DecidableEq

/-- An order-book snapshot (`models.OrderBook`); only the sides are kept,
bids sorted highest first and asks lowest first as fetched. -/
structure OrderBook where
  bids : List OrderBookEntry
  asks : List OrderBookEntry
deriving Repr, DecidableEq

/-- `models.ArbitrageOpportunity` as constructed in `_find_opportunities`
(uuid and wall-clock timestamp omitted). -/
structure ArbitrageOpportunity where
  pair : String
  buy_exchange : String
  sell_exchange : String
  buy_price : ℚ
  sell_price : ℚ
  potential_profit_percentage : ℚ
  max_tradeable_amount_base : ℚ
  max_tradeable_amount_quote : ℚ
  source : String
deriving Repr, DecidableEq

/-- One leg of an executed arbitrage (`models.Trade` as populated in
`_execute_arbitrage`; order id, fee currency and timestamp omitted). -/
structure TradeLeg where
  exchange : String
  pair : String
  side : String
  price : ℚ
  amount_base : ℚ
  amount_quote : ℚ
  fee_cost : ℚ
  status : String
deriving Repr, DecidableEq

/-- `models.ArbitrageTrade` as populated in `_execute_arbitrage`. -/
structure ArbitrageTrade where
  pair : String
  buy_trade : TradeLeg
  sell_trade : TradeLeg
  profit_quote : ℚ
  profit_percentage : ℚ
  is_test_trade : Bool
deriving Repr, DecidableEq

/-- `models.AlertMessage` as populated by `_add_alert` (type kept as the
bare name of the `AlertType` member used at the call site). -/
structure AlertMessage where
  type : String
  message : String
  severity : String
  entity_name : String
deriving Repr, DecidableEq

/-- Value stored in `disabled_pairs` / `disabled_exchanges` by
`_disable_entity`: a reason string and the disable timestamp.  The code
stores no cooldown information. -/
structure FailsafeEntry where
  reason : String
  timestamp : ℚ
deriving Repr, DecidableEq

/-- `models.FailsafeStatus` as held in `_failsafe_status_internal`. -/
structure FailsafeStatus where
  disabled_pairs : List (String × FailsafeEntry)
  disabled_exchanges : List (String × FailsafeEntry)
  global_trading_halt : Bool
  global_halt_reason : Option String
  global_halt_timestamp : Option ℚ
  historical_high_balance_usdt : ℚ
  pair_failure_counts : List (String × Nat)
  exchange_failure_counts : List (String × Nat)
deriving Repr, DecidableEq

/-- A `{free, used, total}` balance record. -/
structure Balance where
  free : ℚ
  used : ℚ
  total : ℚ
deriving Repr, DecidableEq

/-- The mutable state of `ArbitrageBot` that the verified claims touch. -/
structure BotState where
  running : Bool
  current_mode : String
  has_main_loop_task : Bool
  opportunities : List ArbitrageOpportunity
  trades : List ArbitrageTrade
  test_balances : List (String × List (String × Balance))
  alerts : List AlertMessage
  failsafe : FailsafeStatus
  live_total_trades : Nat
  live_total_profit : ℚ
  min_trade_amount_quote : ℚ
  max_trade_amount_quote : ℚ
  min_profit_percentage_threshold : ℚ
  buffer_percentage : ℚ
  using_mock_data : Bool
  test_simulation_active_since : Option ℚ
deriving Repr, DecidableEq

/-- The configuration constants of `config.Settings` used by the engine.
Defaults are the literals of `src/app/config.py`; see the module comment for
the four fields `arbitrage.py` references that `config.py` does not define. -/
structure Settings where
  EXCHANGE_DEFAULT_FEE_RATE : ℚ := 1/1000
  MIN_PROFIT_PERCENTAGE_THRESHOLD : ℚ := 2/10000
  MIN_TRADE_AMOUNT_QUOTE : ℚ := 10
  MAX_TRADE_AMOUNT_QUOTE : ℚ := 750
  BUFFER_PERCENTAGE : ℚ := 1/10000
  MAX_RECENT_ALERTS_TO_STORE : Nat := 50
  MAX_RECENT_TRADES_TO_STORE : Nat := 50
  FAILSAFE_MAX_FAILURES_PER_PAIR_WINDOW : Nat := 5
  FAILSAFE_MAX_FAILURES_PER_EXCHANGE_WINDOW : Nat := 10
  FAILSAFE_MAX_GLOBAL_LOSS_PERCENTAGE : ℚ := 2
  TEST_MODE_TRADE_INTERVAL_ITERATIONS : Nat := 10
deriving Repr, DecidableEq

/-- The default settings object (`config.settings`). -/
def defaultSettings : Settings := {}

/-- Python `dict.get(k, d)` on an association list. -/
def dictGet {α : Type} (m : List (String × α)) (k : String) (d : α) : α :=
  match m with
  | [] => d
  | (k', v) :: rest => if k' = k then v else dictGet rest k d

/-- Python `k in dict` on an association list. -/
def dictHas {α : Type} (m : List (String × α)) (k : String) : Bool :=
  match m with
  | [] => false
  | (k', _) :: rest => if k' = k then true else dictHas rest k

/-- Python `dict[k] = v`: replaces in place, appends a missing key. -/
def dictSet {α : Type} (m : List (String × α)) (k : String) (v : α) :
    List (String × α) :=
  match m with
  | [] => [(k, v)]
  | (k', v') :: rest =>
    if k' = k then (k, v) :: rest else (k', v') :: dictSet rest k v

/-- Python `dict.pop(k, None)` / `del dict[k]`: removes the key if present. -/
def dictPop {α : Type} (m : List (String × α)) (k : String) :
    List (String × α) :=
  match m with
  | [] => []
  | (k', v') :: rest => if k' = k then rest else (k', v') :: dictPop rest k

/-- Python truthiness of an `Optional[str]` (`None` and `""` are falsy). -/
def pyTruthy (s : Option String) : Bool :=
  match s with
  | some v => v ≠ ""
  | none => false

/-- Python `x or default` applied to an `Optional[float]` fee rate:
both `None` and `0.0` fall back to the default
(`get_exchange_fee_rate(...) or settings.EXCHANGE_DEFAULT_FEE_RATE`). -/
def pyOrDefault (x : Option ℚ) (d : ℚ) : ℚ :=
  match x with
  | some v => if v = 0 then d else v
  | none => d

/-- `pair.split("/")` into base and quote currency. -/
def splitPair (p : String) : String × String :=
  match p.splitOn "/" with
  | b :: q :: _ => (b, q)
  | _ => (p, "")

/-- The fee/slippage accessors of `exchanges.ExchangeManager`
(`get_exchange_fee_rate` may return `None`, `get_exchange_slippage_percentage`
always returns a number). -/
structure CostModel where
  feeRate : String → Option ℚ
  slippage : String → ℚ

/-- The `insert(0, x)` followed by `if len(l) > bound: l.pop()` pattern used
for `self.opportunities`, `self.trades` and `self.alerts`. -/
def pushTrim {α : Type} (bound : Nat) (x : α) (l : List α) : List α :=
  let l' := x :: l
  if bound < l'.length then l'.dropLast else l'

/-- `_is_pair_disabled`: membership of the bare key in `disabled_pairs`
(the code's simplified check; no exchange parsing, no expiry). -/
def is_pair_disabled (fs : FailsafeStatus) (pairId : String) : Bool :=
  dictHas fs.disabled_pairs pairId

/-- `_is_exchange_disabled`. -/
def is_exchange_disabled (fs : FailsafeStatus) (exchangeId : String) : Bool :=
  dictHas fs.disabled_exchanges exchangeId

/-- The total cost percentage computed at line 636 of `_find_opportunities`:
`(buy_fee + sell_fee + buy_slippage + sell_slippage) * 100 + 0.01`.
The `0.01` buffer term is a hardcoded literal; the bot's
`buffer_percentage` attribute is not read here. -/
def totalCostPercentage (buyFee sellFee buySlip sellSlip : ℚ) : ℚ :=
  (buyFee + sellFee + buySlip + sellSlip) * 100 + 1/100

/-- The body of the inner double loop of `_find_opportunities`
(lines 611-678) for one ordered exchange pair, excluding the disabled-entity
guards which the caller applies.  `bufferPercentage` is the bot's
`buffer_percentage` attribute, visible to the method but not used by it:
the cost formula hardcodes `0.01`.  Returns the opportunity the iteration
appends, if any.  NOTE the branch structure of lines 646-668 exactly as in
the source: a spread strictly above cost falls into a `pass` branch and
appends nothing; the relaxed test-mode branch only logs; the `else` branch
is the one that constructs and appends the opportunity. -/
def scanPairDecision (s : Settings) (cm : CostModel)
    (testActive : Bool) (minProfitPercentageThreshold : ℚ)
    (bufferPercentage : ℚ) (mode : String) (pair : String)
    (buyEx sellEx : String) (buyBook sellBook : OrderBook) :
    Option ArbitrageOpportunity :=
  match buyBook.asks, sellBook.bids with
  | ask0 :: _, bid0 :: _ =>
    let best_ask_price := ask0.price
    let best_ask_volume := ask0.amount
    let best_bid_price := bid0.price
    let best_bid_volume := bid0.amount
    if best_ask_price ≤ 0 ∨ best_bid_price ≤ 0 then none
    else
      let profit_percentage :=
        (best_bid_price - best_ask_price) / best_ask_price * 100
      let buy_exchange_fee := pyOrDefault (cm.feeRate buyEx) s.EXCHANGE_DEFAULT_FEE_RATE
      let sell_exchange_fee := pyOrDefault (cm.feeRate sellEx) s.EXCHANGE_DEFAULT_FEE_RATE
      let buy_slippage := cm.slippage buyEx
      let sell_slippage := cm.slippage sellEx
      let total_cost_percentage :=
        totalCostPercentage buy_exchange_fee sell_exchange_fee buy_slippage sell_slippage
      let min_profit_threshold := minProfitPercentageThreshold * 100
      if profit_percentage > total_cost_percentage then none
      else if profit_percentage > 0 ∧ testActive = true ∧
          profit_percentage > min_profit_threshold then none
      else
        let max_volume_base := min best_ask_volume best_bid_volume
        some {
          pair := pair
          buy_exchange := buyEx
          sell_exchange := sellEx
          buy_price := best_ask_price
          sell_price := best_bid_price
          potential_profit_percentage := profit_percentage
          max_tradeable_amount_base := max_volume_base
          max_tradeable_amount_quote := max_volume_base * best_ask_price
          source := mode }
  | _, _ => none

/-- The ordered double loop over the exchanges holding books for one pair
(lines 598-678), including the disabled-exchange guard of line 607. -/
def orderedPairsScan (s : Settings) (cm : CostModel) (fs : FailsafeStatus)
    (testActive : Bool) (minProfitPercentageThreshold bufferPercentage : ℚ)
    (mode : String) (pair : String)
    (pairBooks : List (String × OrderBook)) : List ArbitrageOpportunity :=
  pairBooks.enum.flatMap fun bi =>
    pairBooks.enum.filterMap fun sj =>
      if bi.1 = sj.1 then none
      else if is_exchange_disabled fs bi.2.1 ∨ is_exchange_disabled fs sj.2.1 then none
      else
        scanPairDecision s cm testActive minProfitPercentageThreshold
          bufferPercentage mode pair bi.2.1 sj.2.1 bi.2.2 sj.2.2

/-- The per-pair step of `_find_opportunities` (lines 589-596): the
disabled-pair guard, assembling `pair_order_books`, and the `< 2` snapshot
abort. -/
def scanPair (s : Settings) (cm : CostModel) (fs : FailsafeStatus)
    (testActive : Bool) (minProfitPercentageThreshold bufferPercentage : ℚ)
    (mode : String) (allBooks : List (String × List (String × OrderBook)))
    (pair : String) : List ArbitrageOpportunity :=
  if is_pair_disabled fs pair then []
  else
    let pairBooks := allBooks.filterMap fun eb =>
      (eb.2.lookup pair).map fun b => (eb.1, b)
    if pairBooks.length < 2 then []
    else
      orderedPairsScan s cm fs testActive minProfitPercentageThreshold
        bufferPercentage mode pair pairBooks

/-- All opportunities `_find_opportunities` creates, in creation order. -/
def foundOpportunities (s : Settings) (cm : CostModel) (fs : FailsafeStatus)
    (testActive : Bool) (minProfitPercentageThreshold bufferPercentage : ℚ)
    (mode : String) (pairs : List String)
    (allBooks : List (String × List (String × OrderBook))) :
    List ArbitrageOpportunity :=
  pairs.flatMap
    (scanPair s cm fs testActive minProfitPercentageThreshold
      bufferPercentage mode allBooks)

/-- `_find_opportunities` (lines 582-694).  Returns the list the method
returns (sorted descending by `potential_profit_percentage`, line 680,
Python's stable sort) and the updated `self.opportunities` ring buffer
(each created opportunity is pushed at the front and the buffer trimmed to
50, lines 670-672, folded here in creation order exactly as the interleaved
inserts do). -/
def find_opportunities (s : Settings) (cm : CostModel) (fs : FailsafeStatus)
    (testActive : Bool) (minProfitPercentageThreshold bufferPercentage : ℚ)
    (mode : String) (pairs : List String)
    (allBooks : List (String × List (String × OrderBook)))
    (stored : List ArbitrageOpportunity) :
    List ArbitrageOpportunity × List ArbitrageOpportunity :=
  let found := foundOpportunities s cm fs testActive
    minProfitPercentageThreshold bufferPercentage mode pairs allBooks
  (found.insertionSort
      (fun a b => a.potential_profit_percentage ≥ b.potential_profit_percentage),
   found.foldl (fun acc o => pushTrim 50 o acc) stored)

/-- `_add_alert` (lines 1109-1122): pushes the alert at the front of
`self.alerts` and trims the list to `MAX_RECENT_ALERTS_TO_STORE`. -/
def add_alert (s : Settings) (type message entity severity : String)
    (st : BotState) : BotState :=
  let alert : AlertMessage :=
    { type := type, message := message, severity := severity,
      entity_name := entity }
  { st with alerts := pushTrim s.MAX_RECENT_ALERTS_TO_STORE alert st.alerts }

/-- `_trigger_global_halt` (lines 1052-1064): sets the halt fields and emits
a critical alert, a no-op if the halt is already active. -/
def trigger_global_halt (s : Settings) (now : ℚ) (reason : String)
    (st : BotState) : BotState :=
  if st.failsafe.global_trading_halt then st
  else
    let st1 := { st with failsafe := { st.failsafe with
      global_trading_halt := true
      global_halt_reason := some reason
      global_halt_timestamp := some now } }
    add_alert s "FAILSAFE_TRIGGERED"
      ("GLOBAL TRADING HALT ACTIVATED. Reason: " ++ reason) "global" "critical" st1

/-- `_disable_entity` (lines 1038-1050): records `{reason, timestamp}` for
the entity and emits a warning alert.  No cooldown value is stored. -/
def disable_entity (s : Settings) (now : ℚ)
    (entityType entityId reason : String) (st : BotState) : BotState :=
  if entityType = "pair" then
    let st1 := { st with failsafe := { st.failsafe with
      disabled_pairs :=
        dictSet st.failsafe.disabled_pairs entityId { reason := reason, timestamp := now } } }
    add_alert s "FAILSAFE_TRIGGERED"
      ("Failsafe: Trading disabled for pair " ++ entityId ++ ". Reason: " ++ reason)
      "global" "warning" st1
  else if entityType = "exchange" then
    let st1 := { st with failsafe := { st.failsafe with
      disabled_exchanges :=
        dictSet st.failsafe.disabled_exchanges entityId { reason := reason, timestamp := now } } }
    add_alert s "FAILSAFE_TRIGGERED"
      ("Failsafe: Trading disabled for exchange " ++ entityId ++ ". Reason: " ++ reason)
      entityId "warning" st1
  else st

/-- `_check_failsafes` (lines 1007-1027).  `portfolioValue` abstracts
`_get_total_portfolio_value_usdt()`.  A drawdown beyond the threshold (only
evaluated in live mode with a positive historical high) halts and returns at
once; otherwise pair and exchange counters at or above their windows disable
the corresponding entities. -/
def check_failsafes (s : Settings) (portfolioValue now : ℚ)
    (st : BotState) : BotState :=
  let high := st.failsafe.historical_high_balance_usdt
  if st.current_mode = "live" ∧ high > 0 ∧
      (high - portfolioValue) / high * 100 > s.FAILSAFE_MAX_GLOBAL_LOSS_PERCENTAGE then
    trigger_global_halt s now "Global portfolio value dropped, exceeding threshold." st
  else
    let st1 := st.failsafe.pair_failure_counts.foldl (fun acc kc =>
      if s.FAILSAFE_MAX_FAILURES_PER_PAIR_WINDOW ≤ kc.2 ∧
          is_pair_disabled acc.failsafe kc.1 = false then
        disable_entity s now "pair" kc.1 "Exceeded failures." acc
      else acc) st
    st1.failsafe.exchange_failure_counts.foldl (fun acc kc =>
      if s.FAILSAFE_MAX_FAILURES_PER_EXCHANGE_WINDOW ≤ kc.2 ∧
          is_exchange_disabled acc.failsafe kc.1 = false then
        disable_entity s now "exchange" kc.1 "Exceeded failures." acc
      else acc) st1

/-- `_increment_failure_count` (lines 1029-1036): bumps the
`"exchange:pair"` pair counter and the exchange counter, then runs
`_check_failsafes`. -/
def increment_failure_count (s : Settings) (portfolioValue now : ℚ)
    (exchangeId pair : String) (st : BotState) : BotState :=
  let pairKey := exchangeId ++ ":" ++ pair
  let fs := st.failsafe
  let fs1 := { fs with
    pair_failure_counts :=
      dictSet fs.pair_failure_counts pairKey (dictGet fs.pair_failure_counts pairKey 0 + 1)
    exchange_failure_counts :=
      dictSet fs.exchange_failure_counts exchangeId
        (dictGet fs.exchange_failure_counts exchangeId 0 + 1) }
  check_failsafes s portfolioValue now { st with failsafe := fs1 }

/-- `reactivate_failsafe_entity` (lines 1071-1095).  Returns the new state
and the `(ok, message)` pair.  The final `else` branch returns failure and
leaves the state untouched. -/
def reactivate_failsafe_entity (s : Settings) (entityType : String)
    (entityId : Option String) (st : BotState) : BotState × Bool × String :=
  if entityType = "global" ∧ st.failsafe.global_trading_halt then
    let msg := "Global trading halt manually deactivated."
    let st1 := { st with failsafe := { st.failsafe with
      global_trading_halt := false
      global_halt_reason := none
      global_halt_timestamp := none } }
    (add_alert s "FAILSAFE_DEACTIVATED" msg "global" "info" st1, true, msg)
  else if entityType = "pair" ∧ pyTruthy entityId ∧
      is_pair_disabled st.failsafe (entityId.getD "") then
    let eid := entityId.getD ""
    let msg := "Trading for pair " ++ eid ++ " manually reactivated."
    let st1 := { st with failsafe := { st.failsafe with
      disabled_pairs := dictPop st.failsafe.disabled_pairs eid
      pair_failure_counts := dictPop st.failsafe.pair_failure_counts eid } }
    (add_alert s "FAILSAFE_DEACTIVATED" msg "global" "info" st1, true, msg)
  else if entityType = "exchange" ∧ pyTruthy entityId ∧
      is_exchange_disabled st.failsafe (entityId.getD "") then
    let eid := entityId.getD ""
    let msg := "Trading on exchange " ++ eid ++ " manually reactivated."
    let st1 := { st with failsafe := { st.failsafe with
      disabled_exchanges := dictPop st.failsafe.disabled_exchanges eid
      exchange_failure_counts := dictPop st.failsafe.exchange_failure_counts eid } }
    (add_alert s "FAILSAFE_DEACTIVATED" msg eid "info" st1, true, msg)
  else
    (st, false,
      "No active failsafe found for " ++ entityType ++ " " ++ entityId.getD "" ++
        " or invalid type.")

/-- Test-balance read, Python `.get(ex, {}).get(cur, {})` with zero default. -/
def balGet (tb : List (String × List (String × Balance))) (ex cur : String) :
    Balance :=
  dictGet (dictGet tb ex []) cur { free := 0, used := 0, total := 0 }

/-- `self.test_balances[ex][cur]["free"] += d` together with the matching
`"total"` update (lines 795-807).  The Python subscripts assume both keys
exist (a missing key would raise); on present keys the delta is applied to
`free` and `total` with no clamping, and absent keys are left unchanged. -/
def updateTestBalance (tb : List (String × List (String × Balance)))
    (ex cur : String) (d : ℚ) : List (String × List (String × Balance)) :=
  tb.map fun p =>
    if p.1 = ex then
      (p.1, p.2.map fun q =>
        if q.1 = cur then
          (q.1, { q.2 with free := q.2.free + d, total := q.2.total + d })
        else q)
    else p

/-- Result of `exchange_manager.create_order`: `exchanges.py` catches every
exception and returns `None`, so a placement either yields an order dict
with a fill price and fee cost, or `None`. -/
inductive OrderResult where
  | ok (price fee : ℚ)
  | err
deriving Repr, DecidableEq

/-- The external world of one `_execute_arbitrage` call in live mode: the
free balances `get_balances` reports for the buy-side quote currency and the
sell-side base currency, the two order placements, and the value
`_get_total_portfolio_value_usdt()` reports. -/
structure ExecEnv where
  buyQuoteFree : ℚ
  sellBaseFree : ℚ
  buyOrder : OrderResult
  sellOrder : OrderResult
  portfolioValue : ℚ
deriving Repr, DecidableEq

/-- The `is_actively_simulating_test_mode` property. -/
def is_actively_simulating_test_mode (st : BotState) : Bool :=
  st.current_mode = "test_simulating" ∧ st.running

/-- Sizing formula of `_execute_arbitrage` lines 726-731: the tradable base
amount before the notional clamp — the minimum of the opportunity volume,
99% of the buy-side quote balance converted at the buy price, and 99% of
the sell-side base balance. -/
def sizedTradable0 (opp : ArbitrageOpportunity) (buyQuoteFree sellBaseFree : ℚ) : ℚ :=
  min (min opp.max_tradeable_amount_base
      (if opp.buy_price > 0 then buyQuoteFree * (99/100) / opp.buy_price else 0))
    (sellBaseFree * (99/100))

/-- The per-leg notional cap of `_execute_arbitrage` lines 743-746: a trade
whose buy-leg value exceeds the cap is shrunk to exactly the cap. -/
def clampTradable (maxTradeAmountQuote buyPrice t0 : ℚ) : ℚ :=
  if t0 * buyPrice > maxTradeAmountQuote then maxTradeAmountQuote / buyPrice else t0

/-- Realized profit percentage (line 873): guarded against a zero cost. -/
def realizedProfitPercentage (profit cost : ℚ) : ℚ :=
  if cost > 0 then profit / cost * 100 else 0

/-- The `ArbitrageTrade` record built at lines 875-909. -/
def settledTradeRecord (opp : ArbitrageOpportunity) (is_test : Bool)
    (tradable actual_buy_price actual_sell_price buy_fee_cost sell_fee_cost : ℚ)
    (legStatus : String) : ArbitrageTrade :=
  let cost := tradable * actual_buy_price + buy_fee_cost
  let revenue := tradable * actual_sell_price - sell_fee_cost
  let profit_quote := revenue - cost
  { pair := opp.pair
    buy_trade := {
      exchange := opp.buy_exchange, pair := opp.pair, side := "buy"
      price := actual_buy_price, amount_base := tradable
      amount_quote := tradable * actual_buy_price
      fee_cost := buy_fee_cost, status := legStatus }
    sell_trade := {
      exchange := opp.sell_exchange, pair := opp.pair, side := "sell"
      price := actual_sell_price, amount_base := tradable
      amount_quote := tradable * actual_sell_price
      fee_cost := sell_fee_cost, status := legStatus }
    profit_quote := profit_quote
    profit_percentage := realizedProfitPercentage profit_quote cost
    is_test_trade := is_test }

/-- The settlement tail of `_execute_arbitrage` (lines 869-926): profit
computation, the trade record, the bounded trade history, and — in live mode
only — the running totals and the historical-high update.  No drawdown
comparison happens here and the halt flag is not touched. -/
def recordSettledTrade (s : Settings) (env : ExecEnv)
    (opp : ArbitrageOpportunity) (is_test : Bool)
    (tradable actual_buy_price actual_sell_price buy_fee_cost sell_fee_cost : ℚ)
    (legStatus : String) (st : BotState) : BotState :=
  let cost := tradable * actual_buy_price + buy_fee_cost
  let revenue := tradable * actual_sell_price - sell_fee_cost
  let profit_quote := revenue - cost
  let trade : ArbitrageTrade :=
    settledTradeRecord opp is_test tradable actual_buy_price actual_sell_price
      buy_fee_cost sell_fee_cost legStatus
  let st1 := { st with trades := pushTrim s.MAX_RECENT_TRADES_TO_STORE trade st.trades }
  let st2 :=
    if is_test = false then
      let st2a := { st1 with
        live_total_trades := st1.live_total_trades + 1
        live_total_profit := st1.live_total_profit + profit_quote }
      if env.portfolioValue > st2a.failsafe.historical_high_balance_usdt then
        { st2a with failsafe := { st2a.failsafe with
          historical_high_balance_usdt := env.portfolioValue } }
      else st2a
    else st1
  add_alert s (if is_test then "TEST_TRADE_SUCCESS" else "TRADE_SUCCESS")
    ("Arbitrage executed for " ++ opp.pair ++ ".") "global" "info" st2

/-- `_execute_arbitrage` (lines 696-932).  Returns the new state and the
orders placed on exchanges, in order, as `(exchange, side)` pairs (empty in
test mode, which contacts no exchange).  The method performs no check of
`global_trading_halt`.  Sizing (lines 701-756): the tradable base amount is
capped by the opportunity volume, 99% of the buy-side quote balance, and
99% of the sell-side base balance; a value below the minimum notional
returns silently, a value above the cap is clamped, and a non-positive
amount returns with a warning alert. -/
def execute_arbitrage (s : Settings) (cm : CostModel) (env : ExecEnv)
    (now : ℚ) (opp : ArbitrageOpportunity) (st : BotState) :
    BotState × List (String × String) :=
  let base_currency := (splitPair opp.pair).1
  let quote_currency := (splitPair opp.pair).2
  let is_test := is_actively_simulating_test_mode st
  let buy_exchange_quote_balance :=
    if is_test then (balGet st.test_balances opp.buy_exchange quote_currency).free
    else env.buyQuoteFree
  let sell_exchange_base_balance :=
    if is_test then (balGet st.test_balances opp.sell_exchange base_currency).free
    else env.sellBaseFree
  let tradable0 :=
    sizedTradable0 opp buy_exchange_quote_balance sell_exchange_base_balance
  let buy_leg_quote_value := tradable0 * opp.buy_price
  if buy_leg_quote_value < st.min_trade_amount_quote then (st, [])
  else
    let tradable_base_amount :=
      clampTradable st.max_trade_amount_quote opp.buy_price tradable0
    if tradable_base_amount ≤ 0 then
      (add_alert s "TRADE_WARNING"
        ("Insufficient balance to execute trade for " ++ opp.pair ++ ".")
        opp.pair "warning" st, [])
    else if is_test then
      let exchange_buy_fee :=
        pyOrDefault (cm.feeRate opp.buy_exchange) s.EXCHANGE_DEFAULT_FEE_RATE
      let exchange_sell_fee :=
        pyOrDefault (cm.feeRate opp.sell_exchange) s.EXCHANGE_DEFAULT_FEE_RATE
      let buy_slippage := cm.slippage opp.buy_exchange
      let sell_slippage := cm.slippage opp.sell_exchange
      let cost_of_buy_quote := tradable_base_amount * (opp.buy_price * (1 + buy_slippage))
      let proceeds_from_sell_quote := tradable_base_amount * (opp.sell_price * (1 - sell_slippage))
      let buy_fee_cost := cost_of_buy_quote * exchange_buy_fee
      let sell_fee_cost := proceeds_from_sell_quote * exchange_sell_fee
      let tb1 := updateTestBalance st.test_balances opp.buy_exchange quote_currency
        (-(cost_of_buy_quote + buy_fee_cost))
      let tb2 := updateTestBalance tb1 opp.buy_exchange base_currency tradable_base_amount
      let tb3 := updateTestBalance tb2 opp.sell_exchange base_currency (-tradable_base_amount)
      let tb4 := updateTestBalance tb3 opp.sell_exchange quote_currency
        (proceeds_from_sell_quote - sell_fee_cost)
      let st1 := { st with test_balances := tb4 }
      (recordSettledTrade s env opp true tradable_base_amount opp.buy_price
        opp.sell_price buy_fee_cost sell_fee_cost "FILLED" st1, [])
    else
      match env.buyOrder with
      | .err =>
        let st1 := add_alert s "TRADE_FAILURE"
          ("Failed to place BUY order on " ++ opp.buy_exchange ++ " for " ++ opp.pair ++ ".")
          opp.buy_exchange "error" st
        (increment_failure_count s env.portfolioValue now opp.buy_exchange opp.pair st1,
          [(opp.buy_exchange, "buy")])
      | .ok buyPrice buyFee =>
        match env.sellOrder with
        | .err =>
          let st1 := add_alert s "TRADE_FAILURE"
            ("Failed to place SELL order on " ++ opp.sell_exchange ++ " for " ++ opp.pair ++ ".")
            opp.sell_exchange "error" st
          (increment_failure_count s env.portfolioValue now opp.sell_exchange opp.pair st1,
            [(opp.buy_exchange, "buy"), (opp.sell_exchange, "sell")])
        | .ok sellPrice sellFee =>
          (recordSettledTrade s env opp false tradable_base_amount buyPrice
            sellPrice buyFee sellFee "OPEN" st,
            [(opp.buy_exchange, "buy"), (opp.sell_exchange, "sell")])

/-- The per-opportunity execution loop of `_main_loop` (lines 485-490): a
`break` as soon as the halt flag is observed, otherwise execute. -/
def executeLoop (s : Settings) (cm : CostModel) (env : ExecEnv) (now : ℚ) :
    List ArbitrageOpportunity → BotState × List (String × String) →
    BotState × List (String × String)
  | [], acc => acc
  | opp :: rest, (st, orders) =>
    if st.failsafe.global_trading_halt then (st, orders)
    else
      let r := execute_arbitrage s cm env now opp st
      executeLoop s cm env now rest (r.1, orders ++ r.2)

/-- The synthetic opportunity `_simulate_test_trade_if_needed` forces
(lines 956-968): buy at 100, sell at 100.2. -/
def syntheticTestOpportunity (buyEx sellEx pair : String) :
    ArbitrageOpportunity :=
  { pair := pair, buy_exchange := buyEx, sell_exchange := sellEx
    buy_price := 100, sell_price := 501/5
    potential_profit_percentage := 1/5
    max_tradeable_amount_base := 1/10, max_tradeable_amount_quote := 10
    source := "test_forced" }

/-- `_simulate_test_trade_if_needed` (lines 933-971): in active test mode,
every `TEST_MODE_TRADE_INTERVAL_ITERATIONS`-th iteration with no test trade
recorded yet forces a trade on the first two connected exchanges and the
first configured pair.  No halt check is performed here. -/
def simulate_test_trade_if_needed (s : Settings) (cm : CostModel)
    (env : ExecEnv) (now : ℚ) (iterationCount : Nat)
    (connectedExchanges pairs : List String) (st : BotState) :
    BotState × List (String × String) :=
  if is_actively_simulating_test_mode st ∧
      iterationCount % s.TEST_MODE_TRADE_INTERVAL_ITERATIONS = 0 ∧
      (st.trades.filter (fun t => t.is_test_trade)).length = 0 then
    match connectedExchanges, pairs with
    | ex0 :: ex1 :: _, p0 :: _ =>
      execute_arbitrage s cm env now (syntheticTestOpportunity ex0 ex1 p0) st
    | _, _ => (st, [])
  else (st, [])

/-- Number of order books in a fetch result (line 447). -/
def totalBooks (allBooks : List (String × List (String × OrderBook))) : Nat :=
  (allBooks.map (fun eb => eb.2.length)).sum

/-- The scan-and-execute part of one `_main_loop` iteration (lines 479-511):
find opportunities, execute them in the returned (profit-descending) order
with the mid-batch halt break, then possibly force a test trade. -/
def runScanAndExecute (s : Settings) (cm : CostModel) (env : ExecEnv)
    (now : ℚ) (iterationCount : Nat) (connectedExchanges pairs : List String)
    (allBooks : List (String × List (String × OrderBook))) (st : BotState) :
    BotState × List (String × String) :=
  let testActive := is_actively_simulating_test_mode st
  let fo := find_opportunities s cm st.failsafe testActive
    st.min_profit_percentage_threshold st.buffer_percentage st.current_mode
    pairs allBooks st.opportunities
  let st1 := { st with opportunities := fo.2 }
  let r := executeLoop s cm env now fo.1 (st1, [])
  if is_actively_simulating_test_mode r.1 ∧ iterationCount > 5 then
    let r2 := simulate_test_trade_if_needed s cm env now iterationCount
      connectedExchanges pairs r.1
    (r2.1, r.2 ++ r2.2)
  else r

/-- One iteration of `_main_loop` (lines 424-523).  A halted iteration only
sleeps, runs the no-op `_check_global_halt_recovery`, and continues (lines
428-432): the state is unchanged and no order is placed.  `fetched = none`
models the fetch raising (line 462-464); an empty fetch yields a warning and
skips the scan; in active test mode a failed fetch falls back to mock books
(the hash-based generator is abstracted as the `mockBooks` argument). -/
def main_loop_iteration (s : Settings) (cm : CostModel) (env : ExecEnv)
    (now : ℚ) (iterationCount : Nat) (connectedExchanges pairs : List String)
    (fetched : Option (List (String × List (String × OrderBook))))
    (mockBooks : List (String × List (String × OrderBook)))
    (st : BotState) : BotState × List (String × String) :=
  if st.failsafe.global_trading_halt then (st, [])
  else
    match fetched with
    | some allBooks =>
      if totalBooks allBooks = 0 then
        (add_alert s "SYSTEM_WARNING"
          "No valid order books were fetched. Check exchange connections."
          "global" "warning" st, [])
      else
        runScanAndExecute s cm env now iterationCount connectedExchanges pairs
          allBooks { st with using_mock_data := false }
    | none =>
      if is_actively_simulating_test_mode st then
        let st1 := add_alert s "SYSTEM_WARNING"
          "Using mock data for test mode due to API connection issues."
          "global" "warning" { st with using_mock_data := true }
        runScanAndExecute s cm env now iterationCount connectedExchanges pairs
          mockBooks st1
      else (st, [])

/-- `stop` (lines 200-232).  Returns the new state and `(ok, message)`.
When the bot is not running, only `current_mode` may change
(`test_simulating` to `test_idle`, `live` to `idle`). -/
def stop (st : BotState) : BotState × Bool × String :=
  if st.running = false then
    let mode' :=
      if st.current_mode = "test_simulating" then "test_idle"
      else if st.current_mode = "live" then "idle"
      else st.current_mode
    ({ st with current_mode := mode' }, true, "Bot was not running.")
  else
    let before := st.current_mode
    let st1 := { st with
      running := false
      current_mode := if before = "test_simulating" then "test_idle" else "idle"
      has_main_loop_task := false
      test_simulation_active_since :=
        if before = "test_simulating" then none else st.test_simulation_active_since }
    (st1, true, "Bot stopped successfully.")

/-- The failsafe state `ArbitrageBot.__init__` builds (lines 31-40). -/
def emptyFailsafe : FailsafeStatus :=
  { disabled_pairs := [], disabled_exchanges := []
    global_trading_halt := false
    global_halt_reason := none, global_halt_timestamp := none
    historical_high_balance_usdt := 0
    pair_failure_counts := [], exchange_failure_counts := [] }

/-- The bot state `ArbitrageBot.__init__` builds (lines 23-53), with the
numeric attributes taken from `config.settings`. -/
def initialState : BotState :=
  { running := false, current_mode := "idle", has_main_loop_task := false
    opportunities := [], trades := [], test_balances := [], alerts := []
    failsafe := emptyFailsafe
    live_total_trades := 0, live_total_profit := 0
    min_trade_amount_quote := 10, max_trade_amount_quote := 750
    min_profit_percentage_threshold := 2/10000
    buffer_percentage := 1/10000
    using_mock_data := false, test_simulation_active_since := none }

/-! Concrete scenario inputs used by the claim theorems. -/

/-- Scenario A cost model: fee accessors report zero, zero slippage.  (In the
code a reported fee of `0.0` is falsy, so `or` substitutes the 0.1% default.) -/
def cmC1 : CostModel := { feeRate := fun _ => some 0, slippage := fun _ => 0 }

/-- Scenario A: exchange X quotes BTC/USDT ask 50010. -/
def bookC1X : OrderBook := { bids := [], asks := [{ price := 50010, amount := 1 }] }

/-- Scenario A: exchange Y quotes BTC/USDT bid 50200. -/
def bookC1Y : OrderBook := { bids := [{ price := 50200, amount := 1 }], asks := [] }

/-- Scenario A order books. -/
def booksC1 : List (String × List (String × OrderBook)) :=
  [("X", [("BTC/USDT", bookC1X)]), ("Y", [("BTC/USDT", bookC1Y)])]

/-- C2: a live bot with a fresh failsafe registry. -/
def stC2 : BotState := { initialState with current_mode := "live", running := true }

/-- C2: a plainly profitable opportunity, buy at 100 on binanceus, sell at
101 on kraken. -/
def oppC2 : ArbitrageOpportunity :=
  { pair := "BTC/USDT", buy_exchange := "binanceus", sell_exchange := "kraken"
    buy_price := 100, sell_price := 101, potential_profit_percentage := 1
    max_tradeable_amount_base := 1, max_tradeable_amount_quote := 100
    source := "live" }

/-- C2: ample balances, the buy order fills at 100 with fee 0.1, the sell
order placement fails (`create_order` returned `None`). -/
def envC2 : ExecEnv :=
  { buyQuoteFree := 1000, sellBaseFree := 10, buyOrder := .ok 100 (1/10)
    sellOrder := .err, portfolioValue := 0 }

/-- C2: cost model (unused on the live path). -/
def cmC2 : CostModel := { feeRate := fun _ => none, slippage := fun _ => 0 }

/-- C3: an actively simulating test bot whose global halt flag is set. -/
def stC3 : BotState := { initialState with
  current_mode := "test_simulating", running := true
  failsafe := { emptyFailsafe with
    global_trading_halt := true, global_halt_reason := some "drawdown" }
  test_balances :=
    [("binanceus",
      [("USDT", { free := 1000, used := 0, total := 1000 }),
       ("BTC", { free := 0, used := 0, total := 0 })]),
     ("kraken",
      [("USDT", { free := 0, used := 0, total := 0 }),
       ("BTC", { free := 10, used := 0, total := 10 })])] }

/-- C3: the opportunity submitted to `_execute_arbitrage` while halted. -/
def oppC3 : ArbitrageOpportunity :=
  { pair := "BTC/USDT", buy_exchange := "binanceus", sell_exchange := "kraken"
    buy_price := 100, sell_price := 101, potential_profit_percentage := 1
    max_tradeable_amount_base := 1, max_tradeable_amount_quote := 100
    source := "test_simulating" }

/-- C3: environment (test mode touches no exchange, values irrelevant). -/
def envC3 : ExecEnv :=
  { buyQuoteFree := 0, sellBaseFree := 0, buyOrder := .err, sellOrder := .err
    portfolioValue := 0 }

/-- C3: 0.1% fees, no slippage. -/
def cmC3 : CostModel := { feeRate := fun _ => some (1/1000), slippage := fun _ => 0 }

/-- C4: a live bot whose historical high is 1000 USDT. -/
def stC4 : BotState := { initialState with
  current_mode := "live", running := true
  failsafe := { emptyFailsafe with historical_high_balance_usdt := 1000 } }

/-- C4: the executed opportunity. -/
def oppC4 : ArbitrageOpportunity :=
  { pair := "BTC/USDT", buy_exchange := "binanceus", sell_exchange := "kraken"
    buy_price := 100, sell_price := 101, potential_profit_percentage := 1
    max_tradeable_amount_base := 1, max_tradeable_amount_quote := 100
    source := "live" }

/-- C4: both legs fill, and the portfolio is now worth 100 USDT — a 90%
drawdown from the historical high of 1000. -/
def envC4 : ExecEnv :=
  { buyQuoteFree := 1000, sellBaseFree := 10, buyOrder := .ok 100 0
    sellOrder := .ok 101 0, portfolioValue := 100 }

/-- C4: cost model (unused on the live path). -/
def cmC4 : CostModel := { feeRate := fun _ => none, slippage := fun _ => 0 }

/-- C5: a live bot in which the failsafe registry disabled the pair entity
`binanceus:BTC/USDT` at time 0 (the key format `_check_failsafes` uses). -/
def stC5 : BotState := { initialState with
  current_mode := "live", running := true
  failsafe := { emptyFailsafe with
    disabled_pairs :=
      [("binanceus:BTC/USDT", { reason := "Exceeded failures.", timestamp := 0 })] } }

/-- C5: binanceus book, ask 100 / bid 98. -/
def bookC5A : OrderBook :=
  { bids := [{ price := 98, amount := 1 }], asks := [{ price := 100, amount := 2 }] }

/-- C5: kraken book, ask 101 / bid 99. -/
def bookC5B : OrderBook :=
  { bids := [{ price := 99, amount := 1 }], asks := [{ price := 101, amount := 1 }] }

/-- C5: order books offering only spreads at or below cost (which the code
emits). -/
def booksC5 : List (String × List (String × OrderBook)) :=
  [("binanceus", [("BTC/USDT", bookC5A)]), ("kraken", [("BTC/USDT", bookC5B)])]

/-- C5: zero balances so every execution aborts at the minimum notional. -/
def envC5 : ExecEnv :=
  { buyQuoteFree := 0, sellBaseFree := 0, buyOrder := .err, sellOrder := .err
    portfolioValue := 0 }

/-- C5: fee accessors report zero. -/
def cmC5 : CostModel := { feeRate := fun _ => some 0, slippage := fun _ => 0 }

/-- C6: buy-side book, ask 100. -/
def bookC6buy : OrderBook :=
  { bids := [{ price := 98, amount := 1 }], asks := [{ price := 100, amount := 1 }] }

/-- C6: sell-side book, bid 99 — a gross spread of −1%, which the scanner
emits. -/
def bookC6sell : OrderBook :=
  { bids := [{ price := 99, amount := 1 }], asks := [{ price := 101, amount := 1 }] }

/-- C6: zero slippage everywhere. -/
def cmC6a : CostModel := { feeRate := fun _ => some (1/1000), slippage := fun _ => 0 }

/-- C6: buy-side slippage raised to 1%, everything else as in `cmC6a`. -/
def cmC6b : CostModel :=
  { feeRate := fun _ => some (1/1000)
    slippage := fun ex => if ex = "A" then 1/100 else 0 }

/-- C7: a bot with one disabled pair entity and one disabled exchange, and
nonzero failure counters, used to witness the reactivation cases. -/
def stC7 : BotState := { initialState with
  failsafe := { emptyFailsafe with
    disabled_pairs :=
      [("binanceus:BTC/USDT", { reason := "Exceeded failures.", timestamp := 5 })]
    disabled_exchanges :=
      [("gemini", { reason := "Exceeded failures.", timestamp := 6 })]
    pair_failure_counts := [("binanceus:BTC/USDT", 5)]
    exchange_failure_counts := [("gemini", 10)] } }

/-- C8: an actively simulating test bot with 100 USDT free on the buy
exchange. -/
def stC8 : BotState := { initialState with
  current_mode := "test_simulating", running := true
  test_balances :=
    [("binanceus",
      [("USDT", { free := 100, used := 0, total := 100 }),
       ("BTC", { free := 0, used := 0, total := 0 })]),
     ("kraken",
      [("USDT", { free := 0, used := 0, total := 0 }),
       ("BTC", { free := 10, used := 0, total := 10 })])] }

/-- C8: 1% taker fee and 2% buy-side slippage: together they exceed the 1%
sizing margin, so the buy leg deducts more quote than is free. -/
def cmC8 : CostModel :=
  { feeRate := fun _ => some (1/100)
    slippage := fun ex => if ex = "binanceus" then 1/50 else 0 }

/-- C8: the simulated opportunity. -/
def oppC8 : ArbitrageOpportunity :=
  { pair := "BTC/USDT", buy_exchange := "binanceus", sell_exchange := "kraken"
    buy_price := 100, sell_price := 101, potential_profit_percentage := 1
    max_tradeable_amount_base := 2, max_tradeable_amount_quote := 200
    source := "test_simulating" }

/-- C8: environment (test mode touches no exchange). -/
def envC8 : ExecEnv :=
  { buyQuoteFree := 0, sellBaseFree := 0, buyOrder := .err, sellOrder := .err
    portfolioValue := 0 }

/-- C10: a stopped bot still marked `test_simulating` (e.g. after its main
loop exited on its own). -/
def stC10 : BotState := { initialState with
  current_mode := "test_simulating", running := false
  test_simulation_active_since := some 42 }

/-- Verification predicate: every entity disabled in `st` is still disabled
in `a`.  Every operation reachable from a Scan Loop iteration preserves this
relation — nothing in the loop ever removes a disabled entry. -/
def DisabledMono (st a : BotState) : Prop :=
  (∀ p, dictHas st.failsafe.disabled_pairs p = true →
    dictHas a.failsafe.disabled_pairs p = true) ∧
  (∀ e, dictHas st.failsafe.disabled_exchanges e = true →
    dictHas a.failsafe.disabled_exchanges e = true)

/-! Generic helper lemmas about the dict and ring-buffer operations. -/

/-- A predicate preserved by every step of a fold is preserved by the fold. -/
theorem foldl_invariant {α β : Type} (P : α → Prop) (f : α → β → α)
    (h : ∀ a b, P a → P (f a b)) :
    ∀ (l : List β) (a : α), P a → P (l.foldl f a)
  | [], _, ha => ha
  | b :: l, a, ha => foldl_invariant P f h l (f a b) (h a b ha)

/-- The insert-then-trim pattern keeps the buffer within its bound. -/
theorem pushTrim_length_le {α : Type} {b : Nat} (x : α) {l : List α}
    (h : l.length ≤ b) : (pushTrim b x l).length ≤ b := by
  unfold pushTrim
  dsimp only
  split
  · simp only [List.length_dropLast, List.length_cons]
    omega
  · rename_i hb
    simp only [List.length_cons] at hb ⊢
    omega

/-- The insert-then-trim pattern keeps the newest element first. -/
theorem pushTrim_head {α : Type} {b : Nat} (x : α) (l : List α) (hb : 1 ≤ b) :
    (pushTrim b x l).head? = some x := by
  unfold pushTrim
  dsimp only
  split
  · rename_i h
    cases l with
    | nil => simp only [List.length_cons, List.length_nil] at h; omega
    | cons y ys => rfl
  · rfl

/-- Updating one key never removes another key. -/
theorem dictHas_dictSet {α : Type} {m : List (String × α)} {k : String}
    (k' : String) (v : α) (h : dictHas m k = true) :
    dictHas (dictSet m k' v) k = true := by
  induction m with
  | nil => simp [dictHas] at h
  | cons p rest ih =>
    unfold dictSet
    by_cases hk : p.1 = k'
    · rw [if_pos hk]
      unfold dictHas at h ⊢
      by_cases h2 : p.1 = k
      · rw [if_pos (hk ▸ h2)]
      · rw [if_neg h2] at h
        by_cases h3 : k' = k
        · rw [if_pos h3]
        · rw [if_neg h3]; exact h
    · rw [if_neg hk]
      unfold dictHas at h ⊢
      by_cases h2 : p.1 = k
      · rw [if_pos h2]
      · rw [if_neg h2] at h ⊢
        exact ih h

/-- A key that is absent is not found. -/
theorem dictHas_eq_false_of_not_mem {α : Type} {m : List (String × α)}
    {k : String} (h : k ∉ m.map Prod.fst) : dictHas m k = false := by
  induction m with
  | nil => rfl
  | cons p rest ih =>
    simp only [List.map_cons, List.mem_cons, not_or] at h
    unfold dictHas
    rw [if_neg (fun he => h.1 he.symm)]
    exact ih h.2

/-- Removing a key removes it, under the dict invariant of unique keys. -/
theorem dictHas_dictPop_of_nodup {α : Type} {m : List (String × α)} {k : String}
    (hnd : (m.map Prod.fst).Nodup) : dictHas (dictPop m k) k = false := by
  induction m with
  | nil => rfl
  | cons p rest ih =>
    simp only [List.map_cons, List.nodup_cons] at hnd
    unfold dictPop
    by_cases hk : p.1 = k
    · rw [if_pos hk]
      exact dictHas_eq_false_of_not_mem (hk ▸ hnd.1)
    · rw [if_neg hk]
      unfold dictHas
      rw [if_neg hk]
      exact ih hnd.2

/-- Reading an absent key yields the default. -/
theorem dictGet_eq_default_of_not_mem {α : Type} {m : List (String × α)}
    {k : String} (d : α) (h : k ∉ m.map Prod.fst) : dictGet m k d = d := by
  induction m with
  | nil => rfl
  | cons p rest ih =>
    simp only [List.map_cons, List.mem_cons, not_or] at h
    unfold dictGet
    rw [if_neg (fun he => h.1 he.symm)]
    exact ih h.2

/-- Reading a removed key yields the default, under unique keys. -/
theorem dictGet_dictPop_of_nodup {α : Type} {m : List (String × α)} {k : String}
    (d : α) (hnd : (m.map Prod.fst).Nodup) : dictGet (dictPop m k) k d = d := by
  induction m with
  | nil => rfl
  | cons p rest ih =>
    simp only [List.map_cons, List.nodup_cons] at hnd
    unfold dictPop
    by_cases hk : p.1 = k
    · rw [if_pos hk]
      exact dictGet_eq_default_of_not_mem d (hk ▸ hnd.1)
    · rw [if_neg hk]
      unfold dictGet
      rw [if_neg hk]
      exact ih hnd.2

/-! Frame lemmas: what each engine operation leaves untouched. -/

theorem disabledMono_refl (st : BotState) : DisabledMono st st :=
  ⟨fun _ hp => hp, fun _ he => he⟩

theorem disabledMono_trans {a b c : BotState}
    (h1 : DisabledMono a b) (h2 : DisabledMono b c) : DisabledMono a c :=
  ⟨fun p hp => h2.1 p (h1.1 p hp), fun e he => h2.2 e (h1.2 e he)⟩

theorem add_alert_frame (s : Settings) (ty msg e sev : String) (st : BotState) :
    (add_alert s ty msg e sev st).failsafe = st.failsafe ∧
    (add_alert s ty msg e sev st).trades = st.trades ∧
    (add_alert s ty msg e sev st).opportunities = st.opportunities ∧
    (add_alert s ty msg e sev st).test_balances = st.test_balances :=
  ⟨rfl, rfl, rfl, rfl⟩

theorem add_alert_disabledMono (s : Settings) (ty msg e sev : String) (st : BotState) :
    DisabledMono st (add_alert s ty msg e sev st) :=
  ⟨fun _ hp => hp, fun _ he => he⟩

theorem trigger_global_halt_frame (s : Settings) (now : ℚ) (r : String) (st : BotState) :
    (trigger_global_halt s now r st).failsafe.global_trading_halt = true ∧
    (trigger_global_halt s now r st).failsafe.disabled_pairs = st.failsafe.disabled_pairs ∧
    (trigger_global_halt s now r st).failsafe.disabled_exchanges = st.failsafe.disabled_exchanges ∧
    (trigger_global_halt s now r st).trades = st.trades := by
  unfold trigger_global_halt
  split
  · rename_i h
    exact ⟨h, rfl, rfl, rfl⟩
  · exact ⟨rfl, rfl, rfl, rfl⟩

theorem trigger_global_halt_disabledMono (s : Settings) (now : ℚ) (r : String)
    (st : BotState) : DisabledMono st (trigger_global_halt s now r st) := by
  unfold trigger_global_halt
  split
  · exact disabledMono_refl st
  · exact ⟨fun _ hp => hp, fun _ he => he⟩

theorem disable_entity_frame (s : Settings) (now : ℚ) (ty id r : String) (st : BotState) :
    (disable_entity s now ty id r st).trades = st.trades ∧
    (disable_entity s now ty id r st).failsafe.global_trading_halt
      = st.failsafe.global_trading_halt := by
  unfold disable_entity
  split
  · exact ⟨rfl, rfl⟩
  · split
    · exact ⟨rfl, rfl⟩
    · exact ⟨rfl, rfl⟩

theorem disable_entity_disabledMono (s : Settings) (now : ℚ) (ty id r : String)
    (st : BotState) : DisabledMono st (disable_entity s now ty id r st) := by
  unfold disable_entity
  split
  · exact ⟨fun p hp => dictHas_dictSet _ _ hp, fun _ he => he⟩
  · split
    · exact ⟨fun _ hp => hp, fun e he => dictHas_dictSet _ _ he⟩
    · exact disabledMono_refl st

theorem check_failsafes_disabledMono (s : Settings) (pv now : ℚ) (st : BotState) :
    DisabledMono st (check_failsafes s pv now st) := by
  unfold check_failsafes
  dsimp only
  split
  · exact trigger_global_halt_disabledMono s now _ st
  · refine foldl_invariant (DisabledMono st) _ ?_ _ _
      (foldl_invariant (DisabledMono st) _ ?_ _ _ (disabledMono_refl st))
    · intro a kc ha
      split
      · exact disabledMono_trans ha (disable_entity_disabledMono s now _ kc.1 _ a)
      · exact ha
    · intro a kc ha
      split
      · exact disabledMono_trans ha (disable_entity_disabledMono s now _ kc.1 _ a)
      · exact ha

theorem check_failsafes_trades_eq (s : Settings) (pv now : ℚ) (st : BotState) :
    (check_failsafes s pv now st).trades = st.trades := by
  unfold check_failsafes
  dsimp only
  split
  · exact (trigger_global_halt_frame s now _ st).2.2.2
  · refine foldl_invariant (fun (a : BotState) => a.trades = st.trades) _ ?_ _ _
      (foldl_invariant (fun (a : BotState) => a.trades = st.trades) _ ?_ _ _ rfl)
    · intro a kc ha
      split
      · rw [(disable_entity_frame s now _ kc.1 _ a).1]; exact ha
      · exact ha
    · intro a kc ha
      split
      · rw [(disable_entity_frame s now _ kc.1 _ a).1]; exact ha
      · exact ha

theorem increment_failure_count_disabledMono (s : Settings) (pv now : ℚ)
    (ex pr : String) (st : BotState) :
    DisabledMono st (increment_failure_count s pv now ex pr st) := by
  unfold increment_failure_count
  dsimp only
  have h := check_failsafes_disabledMono s pv now
    ({ st with failsafe := { st.failsafe with
        pair_failure_counts := dictSet st.failsafe.pair_failure_counts (ex ++ ":" ++ pr)
          (dictGet st.failsafe.pair_failure_counts (ex ++ ":" ++ pr) 0 + 1)
        exchange_failure_counts := dictSet st.failsafe.exchange_failure_counts ex
          (dictGet st.failsafe.exchange_failure_counts ex 0 + 1) } })
  exact ⟨fun p hp => h.1 p hp, fun e he => h.2 e he⟩

theorem increment_failure_count_trades_eq (s : Settings) (pv now : ℚ)
    (ex pr : String) (st : BotState) :
    (increment_failure_count s pv now ex pr st).trades = st.trades := by
  unfold increment_failure_count
  dsimp only
  have h := check_failsafes_trades_eq s pv now
    ({ st with failsafe := { st.failsafe with
        pair_failure_counts := dictSet st.failsafe.pair_failure_counts (ex ++ ":" ++ pr)
          (dictGet st.failsafe.pair_failure_counts (ex ++ ":" ++ pr) 0 + 1)
        exchange_failure_counts := dictSet st.failsafe.exchange_failure_counts ex
          (dictGet st.failsafe.exchange_failure_counts ex 0 + 1) } })
  exact h

theorem recordSettledTrade_disabled_pairs_eq (s : Settings) (env : ExecEnv)
    (opp : ArbitrageOpportunity) (it : Bool) (t abp asp bfc sfc : ℚ)
    (stt : String) (st : BotState) :
    (recordSettledTrade s env opp it t abp asp bfc sfc stt st).failsafe.disabled_pairs
      = st.failsafe.disabled_pairs := by
  unfold recordSettledTrade
  dsimp only
  cases it
  · simp only [reduceIte, Bool.false_eq_true, if_false]
    split <;> rfl
  · simp only [reduceIte, Bool.true_eq_false, if_false]
    rfl

theorem recordSettledTrade_disabled_exchanges_eq (s : Settings) (env : ExecEnv)
    (opp : ArbitrageOpportunity) (it : Bool) (t abp asp bfc sfc : ℚ)
    (stt : String) (st : BotState) :
    (recordSettledTrade s env opp it t abp asp bfc sfc stt st).failsafe.disabled_exchanges
      = st.failsafe.disabled_exchanges := by
  unfold recordSettledTrade
  dsimp only
  cases it
  · simp only [reduceIte, Bool.false_eq_true, if_false]
    split <;> rfl
  · simp only [reduceIte, Bool.true_eq_false, if_false]
    rfl

theorem recordSettledTrade_halt_eq (s : Settings) (env : ExecEnv)
    (opp : ArbitrageOpportunity) (it : Bool) (t abp asp bfc sfc : ℚ)
    (stt : String) (st : BotState) :
    (recordSettledTrade s env opp it t abp asp bfc sfc stt st).failsafe.global_trading_halt
      = st.failsafe.global_trading_halt := by
  unfold recordSettledTrade
  dsimp only
  cases it
  · simp only [reduceIte, Bool.false_eq_true, if_false]
    split <;> rfl
  · simp only [reduceIte, Bool.true_eq_false, if_false]
    rfl

theorem recordSettledTrade_trades_eq (s : Settings) (env : ExecEnv)
    (opp : ArbitrageOpportunity) (it : Bool) (t abp asp bfc sfc : ℚ)
    (stt : String) (st : BotState) :
    (recordSettledTrade s env opp it t abp asp bfc sfc stt st).trades
      = pushTrim s.MAX_RECENT_TRADES_TO_STORE
          (settledTradeRecord opp it t abp asp bfc sfc stt) st.trades := by
  unfold recordSettledTrade
  dsimp only
  cases it
  · simp only [reduceIte, Bool.false_eq_true, if_false]
    split <;> rfl
  · simp only [reduceIte, Bool.true_eq_false, if_false]
    rfl

theorem recordSettledTrade_alerts_eq (s : Settings) (env : ExecEnv)
    (opp : ArbitrageOpportunity) (it : Bool) (t abp asp bfc sfc : ℚ)
    (stt : String) (st : BotState) :
    (recordSettledTrade s env opp it t abp asp bfc sfc stt st).alerts
      = pushTrim s.MAX_RECENT_ALERTS_TO_STORE
          ({ type := if it then "TEST_TRADE_SUCCESS" else "TRADE_SUCCESS"
             message := "Arbitrage executed for " ++ opp.pair ++ "."
             severity := "info", entity_name := "global" }) st.alerts := by
  unfold recordSettledTrade
  dsimp only
  cases it
  · simp only [reduceIte, Bool.false_eq_true, if_false]
    split <;> rfl
  · simp only [reduceIte, Bool.true_eq_false, if_false]
    rfl

theorem recordSettledTrade_high_live (s : Settings) (env : ExecEnv)
    (opp : ArbitrageOpportunity) (t abp asp bfc sfc : ℚ)
    (stt : String) (st : BotState) :
    (recordSettledTrade s env opp false t abp asp bfc sfc stt st).failsafe.historical_high_balance_usdt
      = max st.failsafe.historical_high_balance_usdt env.portfolioValue := by
  unfold recordSettledTrade
  dsimp only
  simp only [reduceIte, Bool.false_eq_true, if_false]
  split
  · rename_i h
    show env.portfolioValue = _
    rw [max_eq_right (le_of_lt h)]
  · rename_i h
    show st.failsafe.historical_high_balance_usdt = _
    rw [max_eq_left (not_lt.mp h)]

theorem recordSettledTrade_disabledMono (s : Settings) (env : ExecEnv)
    (opp : ArbitrageOpportunity) (it : Bool) (t abp asp bfc sfc : ℚ)
    (stt : String) (st : BotState) :
    DisabledMono st (recordSettledTrade s env opp it t abp asp bfc sfc stt st) := by
  constructor
  · intro p hp
    rw [recordSettledTrade_disabled_pairs_eq]
    exact hp
  · intro e he
    rw [recordSettledTrade_disabled_exchanges_eq]
    exact he


theorem execute_arbitrage_frame (s : Settings) (cm : CostModel) (env : ExecEnv)
    (now : ℚ) (opp : ArbitrageOpportunity) (st : BotState) :
    DisabledMono st (execute_arbitrage s cm env now opp st).1 ∧
    ((execute_arbitrage s cm env now opp st).1.trades = st.trades ∨
      ∃ tr, (execute_arbitrage s cm env now opp st).1.trades
        = pushTrim s.MAX_RECENT_TRADES_TO_STORE tr st.trades) := by
  unfold execute_arbitrage
  dsimp only
  cases ht : is_actively_simulating_test_mode st
  · simp only [Bool.false_eq_true, if_false]
    split
    · exact ⟨disabledMono_refl st, Or.inl rfl⟩
    · split
      · exact ⟨add_alert_disabledMono s _ _ _ _ st, Or.inl rfl⟩
      · cases hb : env.buyOrder with
        | err =>
          refine ⟨?_, ?_⟩
          · exact disabledMono_trans (add_alert_disabledMono s _ _ _ _ st)
              (increment_failure_count_disabledMono s env.portfolioValue now
                opp.buy_exchange opp.pair _)
          · left
            rw [increment_failure_count_trades_eq]
            exact (add_alert_frame s _ _ _ _ st).2.1
        | ok bp bf =>
          cases hs : env.sellOrder with
          | err =>
            refine ⟨?_, ?_⟩
            · exact disabledMono_trans (add_alert_disabledMono s _ _ _ _ st)
                (increment_failure_count_disabledMono s env.portfolioValue now
                  opp.sell_exchange opp.pair _)
            · left
              rw [increment_failure_count_trades_eq]
              exact (add_alert_frame s _ _ _ _ st).2.1
          | ok sp sf =>
            refine ⟨?_, ?_⟩
            · exact recordSettledTrade_disabledMono s env opp false _ bp sp bf sf "OPEN" st
            · right
              exact ⟨_, by rw [recordSettledTrade_trades_eq]⟩
  · simp only [reduceIte]
    split
    · exact ⟨disabledMono_refl st, Or.inl rfl⟩
    · split
      · exact ⟨add_alert_disabledMono s _ _ _ _ st, Or.inl rfl⟩
      · refine ⟨?_, ?_⟩
        · exact ⟨fun p hp => by rw [recordSettledTrade_disabled_pairs_eq]; exact hp,
            fun e he => by rw [recordSettledTrade_disabled_exchanges_eq]; exact he⟩
        · right
          exact ⟨_, by rw [recordSettledTrade_trades_eq]⟩


theorem executeLoop_disabledMono (s : Settings) (cm : CostModel) (env : ExecEnv)
    (now : ℚ) (st0 : BotState) :
    ∀ (opps : List ArbitrageOpportunity) (st : BotState)
      (orders : List (String × String)),
      DisabledMono st0 st →
      DisabledMono st0 (executeLoop s cm env now opps (st, orders)).1
  | [], _, _, h => h
  | opp :: rest, st, orders, h => by
    unfold executeLoop
    split
    · exact h
    · exact executeLoop_disabledMono s cm env now st0 rest
        (execute_arbitrage s cm env now opp st).1 _
        (disabledMono_trans h (execute_arbitrage_frame s cm env now opp st).1)

theorem simulate_test_trade_disabledMono (s : Settings) (cm : CostModel)
    (env : ExecEnv) (now : ℚ) (ic : Nat) (ce ps : List String)
    (st0 st : BotState) (h : DisabledMono st0 st) :
    DisabledMono st0 (simulate_test_trade_if_needed s cm env now ic ce ps st).1 := by
  unfold simulate_test_trade_if_needed
  split
  · split
    · exact disabledMono_trans h (execute_arbitrage_frame s cm env now _ st).1
    · exact h
  · exact h

theorem runScanAndExecute_disabledMono (s : Settings) (cm : CostModel)
    (env : ExecEnv) (now : ℚ) (ic : Nat) (ce ps : List String)
    (books : List (String × List (String × OrderBook)))
    (st0 st : BotState) (h : DisabledMono st0 st) :
    DisabledMono st0 (runScanAndExecute s cm env now ic ce ps books st).1 := by
  unfold runScanAndExecute
  dsimp only
  split
  · refine simulate_test_trade_disabledMono s cm env now ic ce ps st0 _ ?_
    refine executeLoop_disabledMono s cm env now st0 _ _ _ ?_
    exact ⟨fun p hp => h.1 p hp, fun e he => h.2 e he⟩
  · refine executeLoop_disabledMono s cm env now st0 _ _ _ ?_
    exact ⟨fun p hp => h.1 p hp, fun e he => h.2 e he⟩

theorem main_loop_iteration_disabledMono (s : Settings) (cm : CostModel)
    (env : ExecEnv) (now : ℚ) (ic : Nat) (ce ps : List String)
    (fetched : Option (List (String × List (String × OrderBook))))
    (mockBooks : List (String × List (String × OrderBook))) (st : BotState) :
    DisabledMono st (main_loop_iteration s cm env now ic ce ps fetched mockBooks st).1 := by
  unfold main_loop_iteration
  split
  · exact disabledMono_refl st
  · cases fetched with
    | some allBooks =>
      dsimp only
      split
      · exact add_alert_disabledMono s _ _ _ _ st
      · exact runScanAndExecute_disabledMono s cm env now ic ce ps allBooks st _
          ⟨fun p hp => hp, fun e he => he⟩
    | none =>
      dsimp only
      split
      · exact runScanAndExecute_disabledMono s cm env now ic ce ps mockBooks st _
          ⟨fun p hp => hp, fun e he => he⟩
      · exact disabledMono_refl st

theorem scanPairDecision_eq_some (s : Settings) (cm : CostModel)
    (testActive : Bool) (thr buf : ℚ) (mode pair bx sx : String)
    (bb sb : OrderBook) (o : ArbitrageOpportunity)
    (h : scanPairDecision s cm testActive thr buf mode pair bx sx bb sb = some o) :
    o.pair = pair ∧ o.buy_exchange = bx ∧ o.sell_exchange = sx ∧
    o.potential_profit_percentage
      = (o.sell_price - o.buy_price) / o.buy_price * 100 := by
  unfold scanPairDecision at h
  cases hA : bb.asks with
  | nil => rw [hA] at h; exact Option.noConfusion h
  | cons a ta =>
    cases hB : sb.bids with
    | nil => rw [hA, hB] at h; exact Option.noConfusion h
    | cons b tb =>
      rw [hA, hB] at h
      dsimp only at h
      split at h
      · exact Option.noConfusion h
      · split at h
        · exact Option.noConfusion h
        · split at h
          · exact Option.noConfusion h
          · cases h
            exact ⟨rfl, rfl, rfl, rfl⟩

theorem orderedPairsScan_mem (s : Settings) (cm : CostModel) (fs : FailsafeStatus)
    (testActive : Bool) (thr buf : ℚ) (mode pair : String)
    (pairBooks : List (String × OrderBook)) (o : ArbitrageOpportunity)
    (h : o ∈ orderedPairsScan s cm fs testActive thr buf mode pair pairBooks) :
    is_exchange_disabled fs o.buy_exchange = false ∧
    is_exchange_disabled fs o.sell_exchange = false ∧
    o.pair = pair := by
  unfold orderedPairsScan at h
  rw [List.mem_flatMap] at h
  obtain ⟨bi, hbi, h⟩ := h
  rw [List.mem_filterMap] at h
  obtain ⟨sj, hsj, h⟩ := h
  split at h
  · exact Option.noConfusion h
  · split at h
    · exact Option.noConfusion h
    · rename_i hdis
      rw [not_or] at hdis
      obtain ⟨hp, hbx, hsx, _⟩ := scanPairDecision_eq_some s cm testActive thr buf
        mode pair bi.2.1 sj.2.1 bi.2.2 sj.2.2 o h
      refine ⟨?_, ?_, hp⟩
      · rw [hbx]
        exact Bool.not_eq_true _ ▸ (Bool.eq_false_iff.mpr (fun hc => hdis.1 hc))
      · rw [hsx]
        exact Bool.not_eq_true _ ▸ (Bool.eq_false_iff.mpr (fun hc => hdis.2 hc))

theorem scanPair_mem (s : Settings) (cm : CostModel) (fs : FailsafeStatus)
    (testActive : Bool) (thr buf : ℚ) (mode : String)
    (allBooks : List (String × List (String × OrderBook))) (pair : String)
    (o : ArbitrageOpportunity)
    (h : o ∈ scanPair s cm fs testActive thr buf mode allBooks pair) :
    is_pair_disabled fs pair = false ∧
    is_exchange_disabled fs o.buy_exchange = false ∧
    is_exchange_disabled fs o.sell_exchange = false ∧
    o.pair = pair := by
  unfold scanPair at h
  split at h
  · exact absurd h (List.not_mem_nil o)
  · rename_i hdis
    dsimp only at h
    split at h
    · exact absurd h (List.not_mem_nil o)
    · obtain ⟨h1, h2, h3⟩ := orderedPairsScan_mem s cm fs testActive thr buf mode pair _ o h
      exact ⟨Bool.eq_false_iff.mpr (fun hc => hdis hc), h1, h2, h3⟩

theorem find_opportunities_found_mem (s : Settings) (cm : CostModel)
    (fs : FailsafeStatus) (testActive : Bool) (thr buf : ℚ) (mode : String)
    (pairs : List String) (allBooks : List (String × List (String × OrderBook)))
    (stored : List ArbitrageOpportunity) (o : ArbitrageOpportunity)
    (h : o ∈ (find_opportunities s cm fs testActive thr buf mode pairs allBooks stored).1) :
    is_pair_disabled fs o.pair = false ∧
    is_exchange_disabled fs o.buy_exchange = false ∧
    is_exchange_disabled fs o.sell_exchange = false := by
  unfold find_opportunities at h
  dsimp only at h
  rw [(List.perm_insertionSort _ _).mem_iff] at h
  unfold foundOpportunities at h
  rw [List.mem_flatMap] at h
  obtain ⟨pair, _, h⟩ := h
  obtain ⟨h0, h1, h2, h3⟩ := scanPair_mem s cm fs testActive thr buf mode allBooks pair o h
  rw [h3]
  exact ⟨h0, h1, h2⟩

/-- Bumping a failure counter on a fresh registry (no prior counts, zero
historical high, thresholds at least 2) only records the two counters: no
entity is disabled and no halt fires. -/
theorem increment_failure_count_fresh (s : Settings) (pv now : ℚ)
    (ex pr : String) (st : BotState)
    (hpc : st.failsafe.pair_failure_counts = [])
    (hec : st.failsafe.exchange_failure_counts = [])
    (hhigh : st.failsafe.historical_high_balance_usdt = 0)
    (hw1 : 2 ≤ s.FAILSAFE_MAX_FAILURES_PER_PAIR_WINDOW)
    (hw2 : 2 ≤ s.FAILSAFE_MAX_FAILURES_PER_EXCHANGE_WINDOW) :
    increment_failure_count s pv now ex pr st
      = { st with failsafe := { st.failsafe with
            pair_failure_counts := [(ex ++ ":" ++ pr, 1)]
            exchange_failure_counts := [(ex, 1)] } } := by
  unfold increment_failure_count check_failsafes
  dsimp only
  rw [hpc, hec]
  simp only [dictGet, dictSet]
  have hno : ¬(st.current_mode = "live" ∧
      st.failsafe.historical_high_balance_usdt > 0 ∧
      (st.failsafe.historical_high_balance_usdt - pv)
          / st.failsafe.historical_high_balance_usdt * 100
        > s.FAILSAFE_MAX_GLOBAL_LOSS_PERCENTAGE) := by
    intro hc
    rw [hhigh] at hc
    exact lt_irrefl 0 hc.2.1
  rw [if_neg hno]
  simp only [List.foldl]
  split
  · rename_i hc
    exact absurd hc.1 (by omega)
  · simp only [List.foldl]
    split
    · rename_i hc
      exact absurd hc.1 (by omega)
    · rfl

/-- C1: Scenario A — exchange X asks 50010, exchange Y bids 50200 for
BTC/USDT, fee and slippage accessors report zero.  The claim (and the spec)
expects exactly one emitted opportunity buy@50010/sell@50200 with
netProfitPct ≈ 0.38%; the code takes the `pass` branch for any spread above
cost (line 646-647) and constructs opportunities only in the `else` branch
(line 650-669), so the scan returns no opportunity at all and stores none. -/
theorem C1_profitable_spread_not_emitted :
    find_opportunities defaultSettings cmC1 emptyFailsafe false (2/10000)
      (1/10000) "live" ["BTC/USDT"] booksC1 [] = ([], []) := by
  with_unfolding_all rfl

/-- C2 (counterexample): live execution on a fresh registry, the buy order
fills at 100 and the sell order placement fails.  The code places the sell
exactly once (no re-quote, no retry), emits an error-severity (not critical)
alert, increments only the sell leg's counters (`kraken`), leaves the buy
leg's counters untouched, records no trade, and does not trigger the global
halt — the claim asserts a retry, a critical alert, both legs' counters and
a global halt. -/
theorem C2_sell_failure_no_retry_no_halt :
    (execute_arbitrage defaultSettings cmC2 envC2 0 oppC2 stC2).2
      = [("binanceus", "buy"), ("kraken", "sell")] ∧
    (execute_arbitrage defaultSettings cmC2 envC2 0 oppC2 stC2).1.failsafe.global_trading_halt
      = false ∧
    (execute_arbitrage defaultSettings cmC2 envC2 0 oppC2 stC2).1.failsafe.pair_failure_counts
      = [("kraken:BTC/USDT", 1)] ∧
    (execute_arbitrage defaultSettings cmC2 envC2 0 oppC2 stC2).1.failsafe.exchange_failure_counts
      = [("kraken", 1)] ∧
    List.map (fun a => a.severity)
        (execute_arbitrage defaultSettings cmC2 envC2 0 oppC2 stC2).1.alerts
      = ["error"] ∧
    (execute_arbitrage defaultSettings cmC2 envC2 0 oppC2 stC2).1.trades = [] := by
  refine ⟨?_, ?_, ?_, ?_, ?_, ?_⟩ <;> with_unfolding_all rfl

/-- C2 (amended): in live execution, when the buy leg fills and the sell
placement then fails, `_execute_arbitrage` makes no retry: the sell is
attempted exactly once, an error-severity alert is emitted for the sell
exchange, the sell leg's pair and exchange counters are incremented, the buy
leg's counters and the trade history are untouched, and on a fresh registry
(no prior counts, zero historical high, thresholds at least 2) the global
halt is not triggered. -/
theorem C2_sell_failure_behavior (s : Settings) (cm : CostModel) (env : ExecEnv)
    (now : ℚ) (opp : ArbitrageOpportunity) (st : BotState) (bp bf : ℚ)
    (hmode : st.current_mode = "live")
    (hbuy : env.buyOrder = OrderResult.ok bp bf)
    (hsell : env.sellOrder = OrderResult.err)
    (hmin : ¬(sizedTradable0 opp env.buyQuoteFree env.sellBaseFree * opp.buy_price
      < st.min_trade_amount_quote))
    (hpos : ¬(clampTradable st.max_trade_amount_quote opp.buy_price
      (sizedTradable0 opp env.buyQuoteFree env.sellBaseFree) ≤ 0))
    (hhalt : st.failsafe.global_trading_halt = false)
    (hpc : st.failsafe.pair_failure_counts = [])
    (hec : st.failsafe.exchange_failure_counts = [])
    (hhigh : st.failsafe.historical_high_balance_usdt = 0)
    (hw1 : 2 ≤ s.FAILSAFE_MAX_FAILURES_PER_PAIR_WINDOW)
    (hw2 : 2 ≤ s.FAILSAFE_MAX_FAILURES_PER_EXCHANGE_WINDOW) :
    (execute_arbitrage s cm env now opp st).2
      = [(opp.buy_exchange, "buy"), (opp.sell_exchange, "sell")] ∧
    (execute_arbitrage s cm env now opp st).1.failsafe.global_trading_halt = false ∧
    (execute_arbitrage s cm env now opp st).1.failsafe.pair_failure_counts
      = [(opp.sell_exchange ++ ":" ++ opp.pair, 1)] ∧
    (execute_arbitrage s cm env now opp st).1.failsafe.exchange_failure_counts
      = [(opp.sell_exchange, 1)] ∧
    (execute_arbitrage s cm env now opp st).1.trades = st.trades ∧
    (execute_arbitrage s cm env now opp st).1.alerts
      = pushTrim s.MAX_RECENT_ALERTS_TO_STORE
          ({ type := "TRADE_FAILURE"
             message := "Failed to place SELL order on " ++ opp.sell_exchange
               ++ " for " ++ opp.pair ++ "."
             severity := "error", entity_name := opp.sell_exchange }) st.alerts := by
  have hist : is_actively_simulating_test_mode st = false := by
    unfold is_actively_simulating_test_mode
    rw [hmode]
    exact decide_eq_false (fun hc => absurd hc.1 (by decide))
  unfold execute_arbitrage
  dsimp only
  rw [hist]
  simp only [Bool.false_eq_true, if_false]
  rw [if_neg hmin, if_neg hpos, hbuy, hsell]
  dsimp only
  rw [increment_failure_count_fresh s env.portfolioValue now opp.sell_exchange
    opp.pair
    (add_alert s "TRADE_FAILURE"
      ("Failed to place SELL order on " ++ opp.sell_exchange ++ " for " ++ opp.pair ++ ".")
      opp.sell_exchange "error" st) hpc hec hhigh hw1 hw2]
  exact ⟨rfl, hhalt, rfl, rfl, rfl, rfl⟩

/-- C2 witness: the amended behavior at the concrete C2 scenario. -/
theorem C2_sell_failure_behavior_witness :
    (execute_arbitrage defaultSettings cmC2 envC2 0 oppC2 stC2).2
      = [("binanceus", "buy"), ("kraken", "sell")] ∧
    (execute_arbitrage defaultSettings cmC2 envC2 0 oppC2 stC2).1.failsafe.global_trading_halt
      = false := by
  have h := C2_sell_failure_behavior defaultSettings cmC2 envC2 0 oppC2 stC2
    100 (1/10) rfl rfl rfl (by norm_num [sizedTradable0, oppC2, envC2, stC2, initialState])
    (by norm_num [clampTradable, sizedTradable0, oppC2, envC2, stC2, initialState])
    rfl rfl rfl rfl (by norm_num [defaultSettings]) (by norm_num [defaultSettings])
  exact ⟨h.1, h.2.1⟩

/-- C3 (counterexample): `_execute_arbitrage` performs no check of the
global halt flag.  With the halt active, a call in test mode still mutates
the virtual balances and records a trade — it is not rejected.  The claim
asserts every call to execute an opportunity is rejected without mutating
any balance while halted. -/
theorem C3_execute_ignores_halt_flag :
    stC3.failsafe.global_trading_halt = true ∧
    (execute_arbitrage defaultSettings cmC3 envC3 0 oppC3 stC3).1.trades.length = 1 ∧
    (balGet (execute_arbitrage defaultSettings cmC3 envC3 0 oppC3 stC3).1.test_balances
        "binanceus" "USDT").free = 8999/10 ∧
    (balGet stC3.test_balances "binanceus" "USDT").free = 1000 := by
  refine ⟨rfl, ?_, ?_, ?_⟩ <;> with_unfolding_all rfl

/-- C3 (amended): the halt check lives in the Scan Loop, not in
`_execute_arbitrage`: a Scan Loop iteration that starts with the halt flag
set leaves the state unchanged and places no order, and the per-opportunity
loop stops executing as soon as it observes the flag. -/
theorem C3_halted_loop_executes_nothing (s : Settings) (cm : CostModel)
    (env : ExecEnv) (now : ℚ) (ic : Nat) (ce ps : List String)
    (fetched : Option (List (String × List (String × OrderBook))))
    (mockBooks : List (String × List (String × OrderBook))) (st : BotState)
    (hhalt : st.failsafe.global_trading_halt = true) :
    main_loop_iteration s cm env now ic ce ps fetched mockBooks st = (st, []) ∧
    (∀ (opps : List ArbitrageOpportunity) (orders : List (String × String)),
      executeLoop s cm env now opps (st, orders) = (st, orders)) := by
  constructor
  · unfold main_loop_iteration
    rw [if_pos hhalt]
  · intro opps orders
    cases opps with
    | nil => rfl
    | cons o rest =>
      unfold executeLoop
      rw [if_pos hhalt]

/-- C3 witness: the amended behavior at the concrete halted state. -/
theorem C3_halted_loop_executes_nothing_witness :
    stC3.failsafe.global_trading_halt = true ∧
    main_loop_iteration defaultSettings cmC3 envC3 0 1 ["binanceus", "kraken"]
      ["BTC/USDT"] none [] stC3 = (stC3, []) :=
  ⟨rfl, (C3_halted_loop_executes_nothing defaultSettings cmC3 envC3 0 1
    ["binanceus", "kraken"] ["BTC/USDT"] none [] stC3 rfl).1⟩

/-- C4 (counterexample): a live execution settles while the portfolio value
(100) is 90% below the historical high (1000) — far beyond the 2% default
threshold — yet the settlement path only updates totals and leaves the halt
flag false: no drawdown check runs after settlement.  The claim asserts the
halt flag is set whenever the value dropped more than the threshold. -/
theorem C4_settlement_no_drawdown_halt :
    (execute_arbitrage defaultSettings cmC4 envC4 0 oppC4 stC4).1.failsafe.global_trading_halt
      = false ∧
    (execute_arbitrage defaultSettings cmC4 envC4 0 oppC4 stC4).1.trades.length = 1 ∧
    (execute_arbitrage defaultSettings cmC4 envC4 0 oppC4 stC4).1.failsafe.historical_high_balance_usdt
      = 1000 ∧
    envC4.portfolioValue = 100 ∧
    ((1000 - 100 : ℚ) / 1000 * 100 > defaultSettings.FAILSAFE_MAX_GLOBAL_LOSS_PERCENTAGE) := by
  refine ⟨?_, ?_, ?_, rfl, by norm_num [defaultSettings]⟩ <;> with_unfolding_all rfl

/-- C4 (amended): after a live settled execution only the historical high is
tracked — the settlement tail raises it to the current portfolio value when
that is higher and never touches the halt flag; the drawdown comparison that
sets the halt exists only in `_check_failsafes`, which is invoked from
failure-count increments and does halt when the drop exceeds the configured
percentage. -/
theorem C4_settlement_updates_high_only (s : Settings) (env : ExecEnv)
    (opp : ArbitrageOpportunity) (t abp asp bfc sfc : ℚ) (stt : String)
    (st : BotState) (s2 : Settings) (pv2 now2 : ℚ) (st2 : BotState)
    (hmode : st2.current_mode = "live")
    (hhigh : st2.failsafe.historical_high_balance_usdt > 0)
    (hdrop : (st2.failsafe.historical_high_balance_usdt - pv2)
        / st2.failsafe.historical_high_balance_usdt * 100
      > s2.FAILSAFE_MAX_GLOBAL_LOSS_PERCENTAGE) :
    (recordSettledTrade s env opp false t abp asp bfc sfc stt st).failsafe.global_trading_halt
      = st.failsafe.global_trading_halt ∧
    (recordSettledTrade s env opp false t abp asp bfc sfc stt st).failsafe.historical_high_balance_usdt
      = max st.failsafe.historical_high_balance_usdt env.portfolioValue ∧
    (check_failsafes s2 pv2 now2 st2).failsafe.global_trading_halt = true := by
  refine ⟨recordSettledTrade_halt_eq s env opp false t abp asp bfc sfc stt st,
    recordSettledTrade_high_live s env opp t abp asp bfc sfc stt st, ?_⟩
  unfold check_failsafes
  dsimp only
  rw [if_pos ⟨hmode, hhigh, hdrop⟩]
  exact (trigger_global_halt_frame s2 now2 _ st2).1

/-- C4 witness: the amended behavior at the concrete drawdown scenario. -/
theorem C4_settlement_updates_high_only_witness :
    (recordSettledTrade defaultSettings envC4 oppC4 false 1 100 101 0 0 "OPEN" stC4).failsafe.global_trading_halt
      = stC4.failsafe.global_trading_halt ∧
    (check_failsafes defaultSettings 100 0 stC4).failsafe.global_trading_halt = true := by
  have h := C4_settlement_updates_high_only defaultSettings envC4 oppC4 1 100 101
    0 0 "OPEN" stC4 defaultSettings 100 0 stC4 rfl (by norm_num [stC4, emptyFailsafe])
    (by norm_num [stC4, emptyFailsafe, defaultSettings])
  exact ⟨h.1, h.2.2⟩

/-- C5 (counterexample): the registry disabled the pair entity
`binanceus:BTC/USDT` (the key format `_check_failsafes` writes) at time 0.
A Scan Loop iteration run 10^6 seconds later — far beyond the 5-minute
cooldown the claim describes — still emits opportunities whose buy exchange
is `binanceus` for `BTC/USDT` (the scanner's `_is_pair_disabled` checks the
bare symbol, never the stored key) and leaves the entry disabled: no
cooldown is stored and no expiry ever runs. -/
theorem C5_disabled_pair_persists_and_scanned :
    dictHas (main_loop_iteration defaultSettings cmC5 envC5 1000000 7
        ["binanceus", "kraken"] ["BTC/USDT"] (some booksC5) [] stC5).1.failsafe.disabled_pairs
      "binanceus:BTC/USDT" = true ∧
    ((main_loop_iteration defaultSettings cmC5 envC5 1000000 7
        ["binanceus", "kraken"] ["BTC/USDT"] (some booksC5) [] stC5).1.opportunities.map
      (fun o => o.buy_exchange)).contains "binanceus" = true ∧
    (main_loop_iteration defaultSettings cmC5 envC5 1000000 7
      ["binanceus", "kraken"] ["BTC/USDT"] (some booksC5) [] stC5).2 = [] := by
  refine ⟨?_, ?_, ?_⟩ <;> with_unfolding_all rfl

/-- C5 (amended): a disabled exchange is excluded from scanning, and the
scanner also skips a pair whose bare symbol is a key of `disabled_pairs`
(entities auto-disabled by `_check_failsafes` are stored under
`exchange:pair` keys, which never match the bare symbol); disabled entries
are never removed by a Scan Loop iteration — re-enablement is manual only. -/
theorem C5_disable_exclusion_and_persistence
    (s : Settings) (cm : CostModel) (fs : FailsafeStatus) (testActive : Bool)
    (thr buf : ℚ) (mode : String) (pairs : List String)
    (allBooks : List (String × List (String × OrderBook)))
    (stored : List ArbitrageOpportunity)
    (env : ExecEnv) (now : ℚ) (ic : Nat) (ce ps : List String)
    (fetched : Option (List (String × List (String × OrderBook))))
    (mockBooks : List (String × List (String × OrderBook))) (st : BotState) :
    (∀ o, o ∈ (find_opportunities s cm fs testActive thr buf mode pairs
        allBooks stored).1 →
      is_pair_disabled fs o.pair = false ∧
      is_exchange_disabled fs o.buy_exchange = false ∧
      is_exchange_disabled fs o.sell_exchange = false) ∧
    (∀ p, dictHas st.failsafe.disabled_pairs p = true →
      dictHas (main_loop_iteration s cm env now ic ce ps fetched mockBooks
        st).1.failsafe.disabled_pairs p = true) ∧
    (∀ e, dictHas st.failsafe.disabled_exchanges e = true →
      dictHas (main_loop_iteration s cm env now ic ce ps fetched mockBooks
        st).1.failsafe.disabled_exchanges e = true) :=
  ⟨fun o h => find_opportunities_found_mem s cm fs testActive thr buf mode
      pairs allBooks stored o h,
   (main_loop_iteration_disabledMono s cm env now ic ce ps fetched mockBooks st).1,
   (main_loop_iteration_disabledMono s cm env now ic ce ps fetched mockBooks st).2⟩

/-- C5 witness: persistence applied at the concrete disabled entry. -/
theorem C5_disable_exclusion_and_persistence_witness :
    dictHas (main_loop_iteration defaultSettings cmC5 envC5 1000000 8
        ["binanceus", "kraken"] ["BTC/USDT"] none [] stC5).1.failsafe.disabled_pairs
      "binanceus:BTC/USDT" = true :=
  (C5_disable_exclusion_and_persistence defaultSettings cmC5 emptyFailsafe false
    (2/10000) (1/10000) "live" ["BTC/USDT"] [] [] envC5 1000000 8
    ["binanceus", "kraken"] ["BTC/USDT"] none [] stC5).2.1
    "binanceus:BTC/USDT" rfl

/-- C6 (counterexample): with fixed prices (ask 100, bid 99 — a spread the
code emits), raising the buy-side slippage from 0 to 1% leaves the emitted
opportunity — including its `potential_profit_percentage` of −1 — completely
unchanged: the percentage the Scanner assigns is the gross spread and does
not decrease in the cost inputs. -/
theorem C6_profit_pct_ignores_costs :
    cmC6a.slippage "A" < cmC6b.slippage "A" ∧
    scanPairDecision defaultSettings cmC6a false (2/10000) (1/10000) "live"
        "BTC/USDT" "A" "B" bookC6buy bookC6sell
      = scanPairDecision defaultSettings cmC6b false (2/10000) (1/10000) "live"
        "BTC/USDT" "A" "B" bookC6buy bookC6sell ∧
    (scanPairDecision defaultSettings cmC6a false (2/10000) (1/10000) "live"
        "BTC/USDT" "A" "B" bookC6buy bookC6sell).map
      (fun o => o.potential_profit_percentage) = some (-1) := by
  refine ⟨by norm_num [cmC6a, cmC6b], ?_, ?_⟩ <;> with_unfolding_all rfl

/-- C6 (amended): the profit percentage the Scanner assigns to an emitted
opportunity is the gross spread `(bid - ask)/ask * 100` of its own quoted
prices, independent of every fee/slippage/buffer input (the
`buffer_percentage` argument is not read at all — the cost formula hardcodes
0.01); the total-cost percentage the spread is compared against is strictly
increasing in each fee and slippage input separately. -/
theorem C6_gross_spread_and_cost_monotone :
    (∀ (s : Settings) (cm : CostModel) (testActive : Bool) (thr buf : ℚ)
       (mode pair bx sx : String) (bb sb : OrderBook) (o : ArbitrageOpportunity),
      scanPairDecision s cm testActive thr buf mode pair bx sx bb sb = some o →
      o.potential_profit_percentage
        = (o.sell_price - o.buy_price) / o.buy_price * 100) ∧
    (∀ (s : Settings) (cm : CostModel) (testActive : Bool) (thr b1 b2 : ℚ)
       (mode pair bx sx : String) (bb sb : OrderBook),
      scanPairDecision s cm testActive thr b1 mode pair bx sx bb sb
        = scanPairDecision s cm testActive thr b2 mode pair bx sx bb sb) ∧
    (∀ a a' b c d : ℚ, a < a' →
      totalCostPercentage a b c d < totalCostPercentage a' b c d ∧
      totalCostPercentage b a c d < totalCostPercentage b a' c d ∧
      totalCostPercentage b c a d < totalCostPercentage b c a' d ∧
      totalCostPercentage b c d a < totalCostPercentage b c d a') := by
  refine ⟨?_, ?_, ?_⟩
  · intro s cm testActive thr buf mode pair bx sx bb sb o h
    exact (scanPairDecision_eq_some s cm testActive thr buf mode pair bx sx
      bb sb o h).2.2.2
  · intro s cm testActive thr b1 b2 mode pair bx sx bb sb
    rfl
  · intro a a' b c d h
    unfold totalCostPercentage
    refine ⟨by linarith, by linarith, by linarith, by linarith⟩

/-- C6 witness: the amended facts at concrete inputs. -/
theorem C6_gross_spread_and_cost_monotone_witness :
    (∃ o, scanPairDecision defaultSettings cmC6a false (2/10000) (1/10000)
        "live" "BTC/USDT" "A" "B" bookC6buy bookC6sell = some o ∧
      o.potential_profit_percentage
        = (o.sell_price - o.buy_price) / o.buy_price * 100) ∧
    totalCostPercentage 0 0 0 0 < totalCostPercentage (1/100) 0 0 0 := by
  refine ⟨?_, (C6_gross_spread_and_cost_monotone.2.2 0 (1/100) 0 0 0
    (by norm_num)).1⟩
  refine ⟨{ pair := "BTC/USDT", buy_exchange := "A", sell_exchange := "B"
            buy_price := 100, sell_price := 99
            potential_profit_percentage := -1
            max_tradeable_amount_base := 1, max_tradeable_amount_quote := 100
            source := "live" }, ?_, ?_⟩
  · with_unfolding_all rfl
  · exact C6_gross_spread_and_cost_monotone.1 defaultSettings cmC6a false
      (2/10000) (1/10000) "live" "BTC/USDT" "A" "B" bookC6buy bookC6sell _
      (by with_unfolding_all rfl)

/-- Updating one currency of one exchange in the nested balance map adds the
delta to `free` and `total` of exactly that entry (inner list step). -/
theorem dictGet_map_balance_update (inner : List (String × Balance))
    (cur : String) (d : ℚ) (h : dictHas inner cur = true) :
    dictGet (inner.map fun q =>
        if q.1 = cur then
          (q.1, { q.2 with free := q.2.free + d, total := q.2.total + d })
        else q) cur { free := 0, used := 0, total := 0 }
      = { dictGet inner cur { free := 0, used := 0, total := 0 } with
          free := (dictGet inner cur { free := 0, used := 0, total := 0 }).free + d
          total := (dictGet inner cur { free := 0, used := 0, total := 0 }).total + d } := by
  induction inner with
  | nil => simp [dictHas] at h
  | cons q rest ih =>
    simp only [List.map_cons]
    by_cases hq : q.1 = cur
    · simp only [if_pos hq]
      unfold dictGet
      rw [if_pos hq, if_pos hq]
    · simp only [if_neg hq]
      unfold dictGet
      rw [if_neg hq, if_neg hq]
      unfold dictHas at h
      rw [if_neg hq] at h
      exact ih h

/-- Unfolding equation for `dictGet` on a cons cell. -/
theorem dictGet_cons {α : Type} (k : String) (v : α) (rest : List (String × α))
    (key : String) (d : α) :
    dictGet ((k, v) :: rest) key d = if k = key then v else dictGet rest key d := rfl

/-- Unfolding equation for `dictHas` on a cons cell. -/
theorem dictHas_cons {α : Type} (k : String) (v : α) (rest : List (String × α))
    (key : String) :
    dictHas ((k, v) :: rest) key = if k = key then true else dictHas rest key := rfl

/-- `updateTestBalance` adds the delta to `free` and `total` of the
addressed entry when it exists — with no clamping of negative results. -/
theorem balGet_updateTestBalance (tb : List (String × List (String × Balance)))
    (ex cur : String) (d : ℚ)
    (hex : dictHas tb ex = true)
    (hcur : dictHas (dictGet tb ex []) cur = true) :
    balGet (updateTestBalance tb ex cur d) ex cur
      = { balGet tb ex cur with
          free := (balGet tb ex cur).free + d
          total := (balGet tb ex cur).total + d } := by
  induction tb with
  | nil => simp [dictHas] at hex
  | cons p rest ih =>
    obtain ⟨k, inner⟩ := p
    unfold updateTestBalance
    simp only [List.map_cons]
    by_cases hp : k = ex
    · simp only [if_pos hp]
      have hcur' : dictHas inner cur = true := by
        simp only [dictGet_cons, if_pos hp] at hcur
        exact hcur
      unfold balGet
      simp only [dictGet_cons, if_pos hp]
      exact dictGet_map_balance_update inner cur d hcur'
    · simp only [if_neg hp]
      have hex' : dictHas rest ex = true := by
        simp only [dictHas_cons, if_neg hp] at hex
        exact hex
      have hcur' : dictHas (dictGet rest ex []) cur = true := by
        simp only [dictGet_cons, if_neg hp] at hcur
        exact hcur
      have hih := ih hex' hcur'
      unfold balGet updateTestBalance at hih
      unfold balGet
      simp only [dictGet_cons, if_neg hp]
      exact hih

/-- C7: `reactivate_failsafe_entity` on any entity that is not currently
disabled (or, for `global`, not halted) — including invalid types, a missing
name, or an empty name — returns a failure with the code's message and
returns the state entirely unchanged; on a currently disabled pair or
exchange it removes the entry from the disabled set (dict `del`), resets the
failure counter (dict `pop`), and returns success, leaving, under the dict
invariant of unique keys, the entity absent and its counter at the zero
default. -/
theorem C7_reactivate_noop_and_reset (s : Settings) (st : BotState)
    (etype : String) (eid : Option String) :
    (¬(etype = "global" ∧ st.failsafe.global_trading_halt = true) →
     ¬(etype = "pair" ∧ pyTruthy eid = true ∧
        is_pair_disabled st.failsafe (eid.getD "") = true) →
     ¬(etype = "exchange" ∧ pyTruthy eid = true ∧
        is_exchange_disabled st.failsafe (eid.getD "") = true) →
     reactivate_failsafe_entity s etype eid st
       = (st, false, "No active failsafe found for " ++ etype ++ " "
            ++ eid.getD "" ++ " or invalid type.")) ∧
    (∀ pid : String, etype = "pair" → eid = some pid → pid ≠ "" →
     is_pair_disabled st.failsafe pid = true →
     (reactivate_failsafe_entity s etype eid st).1.failsafe.disabled_pairs
        = dictPop st.failsafe.disabled_pairs pid ∧
     (reactivate_failsafe_entity s etype eid st).1.failsafe.pair_failure_counts
        = dictPop st.failsafe.pair_failure_counts pid ∧
     (reactivate_failsafe_entity s etype eid st).2.1 = true ∧
     ((st.failsafe.disabled_pairs.map Prod.fst).Nodup →
       dictHas (reactivate_failsafe_entity s etype eid st).1.failsafe.disabled_pairs pid
         = false) ∧
     ((st.failsafe.pair_failure_counts.map Prod.fst).Nodup →
       dictGet (reactivate_failsafe_entity s etype eid st).1.failsafe.pair_failure_counts pid 0
         = 0)) ∧
    (∀ xid : String, etype = "exchange" → eid = some xid → xid ≠ "" →
     is_exchange_disabled st.failsafe xid = true →
     (reactivate_failsafe_entity s etype eid st).1.failsafe.disabled_exchanges
        = dictPop st.failsafe.disabled_exchanges xid ∧
     (reactivate_failsafe_entity s etype eid st).1.failsafe.exchange_failure_counts
        = dictPop st.failsafe.exchange_failure_counts xid ∧
     (reactivate_failsafe_entity s etype eid st).2.1 = true) := by
  refine ⟨?_, ?_, ?_⟩
  · intro h1 h2 h3
    unfold reactivate_failsafe_entity
    rw [if_neg h1, if_neg h2, if_neg h3]
  · intro pid he hid hne hdis
    subst he
    subst hid
    have hcond : "pair" = "pair" ∧ pyTruthy (some pid) = true ∧
        is_pair_disabled st.failsafe ((some pid).getD "") = true := by
      refine ⟨rfl, ?_, hdis⟩
      unfold pyTruthy
      exact decide_eq_true hne
    have hnc : ¬("pair" = "global" ∧ st.failsafe.global_trading_halt = true) :=
      fun hc => absurd hc.1 (by decide)
    unfold reactivate_failsafe_entity
    rw [if_neg hnc, if_pos hcond]
    refine ⟨rfl, rfl, rfl, ?_, ?_⟩
    · intro hnd
      exact dictHas_dictPop_of_nodup hnd
    · intro hnd
      exact dictGet_dictPop_of_nodup 0 hnd
  · intro xid he hid hne hdis
    subst he
    subst hid
    have hcond : "exchange" = "exchange" ∧ pyTruthy (some xid) = true ∧
        is_exchange_disabled st.failsafe ((some xid).getD "") = true := by
      refine ⟨rfl, ?_, hdis⟩
      unfold pyTruthy
      exact decide_eq_true hne
    have hnc1 : ¬("exchange" = "global" ∧ st.failsafe.global_trading_halt = true) :=
      fun hc => absurd hc.1 (by decide)
    have hnc2 : ¬("exchange" = "pair" ∧ pyTruthy (some xid) = true ∧
        is_pair_disabled st.failsafe ((some xid).getD "") = true) :=
      fun hc => absurd hc.1 (by decide)
    unfold reactivate_failsafe_entity
    rw [if_neg hnc1, if_neg hnc2, if_pos hcond]
    exact ⟨rfl, rfl, rfl⟩

/-- C7 witness: the no-op case on the initial state and the removal case on
the concrete disabled registry. -/
theorem C7_reactivate_noop_and_reset_witness :
    reactivate_failsafe_entity defaultSettings "pair" (some "BTC/USDT") initialState
      = (initialState, false,
        "No active failsafe found for pair BTC/USDT or invalid type.") ∧
    (reactivate_failsafe_entity defaultSettings "pair" (some "binanceus:BTC/USDT") stC7).1.failsafe.disabled_pairs
      = dictPop stC7.failsafe.disabled_pairs "binanceus:BTC/USDT" := by
  constructor
  · exact (C7_reactivate_noop_and_reset defaultSettings initialState "pair"
      (some "BTC/USDT")).1
      (fun hc => absurd hc.1 (by decide))
      (fun hc => absurd hc.2.2 (by decide))
      (fun hc => absurd hc.1 (by decide))
  · exact ((C7_reactivate_noop_and_reset defaultSettings stC7 "pair"
      (some "binanceus:BTC/USDT")).2.1 "binanceus:BTC/USDT" rfl rfl
      (by decide) (by with_unfolding_all rfl)).1

/-- C8 (counterexample): in test mode with 100 USDT free on the buy
exchange, a 1% fee and 2% buy-side slippage, the simulated buy leg deducts
101.9898 USDT: the resulting free balance is −1.9898 — negative, not clamped
to zero — and the only alert raised is the info-severity success alert, not
an error.  The claim asserts a negative result is clamped to zero and an
error alert raised. -/
theorem C8_negative_balance_not_clamped :
    (balGet (execute_arbitrage defaultSettings cmC8 envC8 0 oppC8 stC8).1.test_balances
        "binanceus" "USDT").free = -(9949/5000) ∧
    (balGet stC8.test_balances "binanceus" "USDT").free = 100 ∧
    List.map (fun a => a.severity)
        (execute_arbitrage defaultSettings cmC8 envC8 0 oppC8 stC8).1.alerts
      = ["info"] := by
  refine ⟨?_, ?_, ?_⟩ <;> with_unfolding_all rfl

/-- C8 (amended): test-mode balance updates apply the leg's delta to `free`
and `total` directly — a negative result is stored as-is, with no clamping —
and a completed simulated execution adds exactly one info-severity success
alert and contacts no exchange. -/
theorem C8_raw_delta_update
    (tb : List (String × List (String × Balance))) (ex cur : String) (d : ℚ)
    (hex : dictHas tb ex = true)
    (hcur : dictHas (dictGet tb ex []) cur = true) :
    (balGet (updateTestBalance tb ex cur d) ex cur).free
      = (balGet tb ex cur).free + d ∧
    (balGet (updateTestBalance tb ex cur d) ex cur).total
      = (balGet tb ex cur).total + d ∧
    (∀ (s : Settings) (cm : CostModel) (env : ExecEnv) (now : ℚ)
       (opp : ArbitrageOpportunity) (st : BotState),
      is_actively_simulating_test_mode st = true →
      ¬(sizedTradable0 opp
          (balGet st.test_balances opp.buy_exchange (splitPair opp.pair).2).free
          (balGet st.test_balances opp.sell_exchange (splitPair opp.pair).1).free
          * opp.buy_price < st.min_trade_amount_quote) →
      ¬(clampTradable st.max_trade_amount_quote opp.buy_price
          (sizedTradable0 opp
            (balGet st.test_balances opp.buy_exchange (splitPair opp.pair).2).free
            (balGet st.test_balances opp.sell_exchange (splitPair opp.pair).1).free)
        ≤ 0) →
      (execute_arbitrage s cm env now opp st).1.alerts
        = pushTrim s.MAX_RECENT_ALERTS_TO_STORE
            ({ type := "TEST_TRADE_SUCCESS"
               message := "Arbitrage executed for " ++ opp.pair ++ "."
               severity := "info", entity_name := "global" }) st.alerts ∧
      (execute_arbitrage s cm env now opp st).2 = []) := by
  obtain h := balGet_updateTestBalance tb ex cur d hex hcur
  refine ⟨by rw [h], by rw [h], ?_⟩
  intro s cm env now opp st ht hmin hpos
  unfold execute_arbitrage
  dsimp only
  rw [ht]
  simp only [reduceIte]
  rw [if_neg hmin, if_neg hpos]
  rw [recordSettledTrade_alerts_eq]
  exact ⟨rfl, rfl⟩

/-- C8 witness: the amended behavior at the concrete C8 scenario. -/
theorem C8_raw_delta_update_witness :
    (balGet (updateTestBalance stC8.test_balances "binanceus" "USDT"
        (-(509949/5000))) "binanceus" "USDT").free
      = (balGet stC8.test_balances "binanceus" "USDT").free + -(509949/5000) ∧
    (execute_arbitrage defaultSettings cmC8 envC8 0 oppC8 stC8).2 = [] := by
  have h := C8_raw_delta_update stC8.test_balances "binanceus" "USDT"
    (-(509949/5000)) (by decide) (by decide)
  refine ⟨h.1, (h.2.2 defaultSettings cmC8 envC8 0 oppC8 stC8 (by decide)
    ?_ ?_).2⟩
  · with_unfolding_all decide
  · with_unfolding_all decide

/-- C9: the stored recent-opportunities buffer never exceeds 50 entries
across a scan, the stored executions history never exceeds the configured
maximum across an execution, and the insert-then-trim operation both stores
use places the most recent entry first. -/
theorem C9_bounded_histories
    (s : Settings) (cm : CostModel) (fs : FailsafeStatus) (testActive : Bool)
    (thr buf : ℚ) (mode : String) (pairs : List String)
    (allBooks : List (String × List (String × OrderBook)))
    (stored : List ArbitrageOpportunity)
    (env : ExecEnv) (now : ℚ) (opp : ArbitrageOpportunity) (st : BotState) :
    (stored.length ≤ 50 →
      ((find_opportunities s cm fs testActive thr buf mode pairs allBooks
        stored).2).length ≤ 50) ∧
    (st.trades.length ≤ s.MAX_RECENT_TRADES_TO_STORE →
      (execute_arbitrage s cm env now opp st).1.trades.length
        ≤ s.MAX_RECENT_TRADES_TO_STORE) ∧
    (∀ (b : Nat) (x : ArbitrageOpportunity) (l : List ArbitrageOpportunity),
      1 ≤ b → (pushTrim b x l).head? = some x) := by
  refine ⟨?_, ?_, fun b x l hb => pushTrim_head x l hb⟩
  · intro h
    unfold find_opportunities
    dsimp only
    exact foldl_invariant (fun (l : List ArbitrageOpportunity) => l.length ≤ 50)
      _ (fun l o hl => pushTrim_length_le o hl) _ stored h
  · intro h
    rcases (execute_arbitrage_frame s cm env now opp st).2 with he | ⟨tr, he⟩
    · rw [he]; exact h
    · rw [he]; exact pushTrim_length_le tr h

/-- C9 witness: the bounds at the concrete Scenario A scan and the concrete
C4 execution, and the head property at a concrete push. -/
theorem C9_bounded_histories_witness :
    ((find_opportunities defaultSettings cmC1 emptyFailsafe false (2/10000)
      (1/10000) "live" ["BTC/USDT"] booksC1 []).2).length ≤ 50 ∧
    (execute_arbitrage defaultSettings cmC4 envC4 0 oppC4 stC4).1.trades.length
      ≤ defaultSettings.MAX_RECENT_TRADES_TO_STORE ∧
    (pushTrim 50 oppC4 []).head? = some oppC4 := by
  have h := C9_bounded_histories defaultSettings cmC1 emptyFailsafe false
    (2/10000) (1/10000) "live" ["BTC/USDT"] booksC1 [] envC4 0 oppC4 stC4
  exact ⟨h.1 (by decide), h.2.1 (by decide), h.2.2 50 oppC4 [] (by decide)⟩

/-- C10: calling `stop` on a bot that is not running returns success with
the message `Bot was not running.`, changes at most `current_mode`
(`test_simulating` to `test_idle`, `live` to `idle`, anything else kept),
leaves trades, opportunities, alerts, virtual balances, the failsafe state,
the loop-task handle and the test-simulation start time unchanged, and a
second `stop` returns the same state and result — `stop` is idempotent on a
non-running bot. -/
theorem C10_stop_idempotent_frame (st : BotState) (h : st.running = false) :
    (stop st).2.1 = true ∧
    (stop st).2.2 = "Bot was not running." ∧
    (stop st).1.running = st.running ∧
    (stop st).1.trades = st.trades ∧
    (stop st).1.opportunities = st.opportunities ∧
    (stop st).1.alerts = st.alerts ∧
    (stop st).1.test_balances = st.test_balances ∧
    (stop st).1.failsafe = st.failsafe ∧
    (stop st).1.has_main_loop_task = st.has_main_loop_task ∧
    (stop st).1.test_simulation_active_since = st.test_simulation_active_since ∧
    (stop st).1.current_mode
      = (if st.current_mode = "test_simulating" then "test_idle"
         else if st.current_mode = "live" then "idle" else st.current_mode) ∧
    stop (stop st).1 = stop st := by
  unfold stop
  rw [if_pos h]
  refine ⟨rfl, rfl, rfl, rfl, rfl, rfl, rfl, rfl, rfl, rfl, rfl, ?_⟩
  rw [if_pos (show ({ st with current_mode :=
      if st.current_mode = "test_simulating" then "test_idle"
      else if st.current_mode = "live" then "idle"
      else st.current_mode } : BotState).running = false from h)]
  by_cases h1 : st.current_mode = "test_simulating"
  · simp only [h1]
    rfl
  · by_cases h2 : st.current_mode = "live"
    · simp only [h2]
      rfl
    · simp only [if_neg h1, if_neg h2]

/-- C10 witness: `stop` on the concrete non-running test state. -/
theorem C10_stop_idempotent_frame_witness :
    (stop stC10).2.2 = "Bot was not running." ∧
    (stop stC10).1.current_mode = "test_idle" ∧
    stop (stop stC10).1 = stop stC10 := by
  have h := C10_stop_idempotent_frame stC10 rfl
  refine ⟨h.2.1, ?_, h.2.2.2.2.2.2.2.2.2.2.2⟩
  rw [h.2.2.2.2.2.2.2.2.2.2.1]
  rfl

end ArbBot
